import Mathlib

/-!
A shallow embedding of the `robot_dreams_demo_project` weather ETL pipeline
(landing-zone fetcher, bronze transformer, silver merger, golden analyzer)
together with proofs about its data-flow contract.

Modelling conventions:
* a polars `DataFrame`/`LazyFrame` is a list of rows; a row is an association
  list from column names to values;
* numeric cells are rationals (`ℚ`), datetime cells carry their ISO string,
  string cells are `String`s; a missing/NULL cell is `Value.null`;
* fallible Python code (raised exceptions) is modelled with `Option`/`Except`;
* the filesystem is a map from path strings to file contents.
-/

namespace Pipeline

/-- A cell value of a table. -/
inductive Value : Type where
  | null : Value
  | s (x : String) : Value
  | q (x : ℚ) : Value
  | b (x : Bool) : Value
  | dt (x : String) : Value
deriving DecidableEq

/-- A row: column name to cell value, in column order. -/
abbrev Row : Type := List (String × Value)

/-- A table, as its list of rows. -/
abbrev DF : Type := List Row

/-! ## Execution-time handling of the four stages

`src/layers/silver_layer.py` annotates `execution_time` as a
`datetime.datetime` and derives the run directory with
`execution_time.isoformat()`, while `landing_zone.py`, `bronze_layer.py` and
`golden_layer.py` annotate it as `str` and use it directly as a path segment
(`base_path / execution_time / ...`).  Python is dynamically typed, so we model
the argument as a dynamic value and each stage's directory derivation as a
partial function: using a `datetime` as a path segment raises `TypeError`, and
calling `.isoformat()` on a `str` raises `AttributeError`. -/

/-- A Python `datetime.datetime`, treated opaquely except for `isoformat`. -/
structure PyDatetime : Type where
  iso : String
deriving DecidableEq

/-- A dynamically-typed `execution_time` argument: the scheduled DAG passes the
rendered template string `{{ ds }}` (a date string), the ad-hoc
`simple_runner.py` entry point passes `datetime.datetime.now()`. -/
inductive PyTime : Type where
  | str (x : String) : PyTime
  | dt (d : PyDatetime) : PyTime
deriving DecidableEq

/-- Run-directory component in `landing_zone._get_path_to_write`:
`base_output_path / execution_time / prefix` uses the argument directly as a
path segment, which `pathlib` accepts only for a string. -/
def landingRunSegment : PyTime → Except String String
  | .str x => .ok x
  | .dt _ => .error "TypeError"

/-- Run-directory component in `bronze_layer._get_input_path` /
`_get_output_path`: `base_path / execution_time / prefix`, string only. -/
def bronzeRunSegment : PyTime → Except String String
  | .str x => .ok x
  | .dt _ => .error "TypeError"

/-- Run-directory component in `golden_layer._get_output_path` and the
`base_input_path / execution_time` read in `calculate_analytics`. -/
def goldenRunSegment : PyTime → Except String String
  | .str x => .ok x
  | .dt _ => .error "TypeError"

/-- Run-directory component in `silver_layer._get_input_path` /
`_get_output_path`: `base_path / execution_time.isoformat() / ...`; `isoformat`
exists on a `datetime` but not on a `str`. -/
def silverRunSegment : PyTime → Except String String
  | .str _ => .error "AttributeError"
  | .dt d => .ok d.iso

namespace SilverLayer

/-- Join key of a row: the values of the `time` and `city_name` columns
(`on=["time", "city_name"]` in `silver_layer.merge_and_clean_dataframes`). -/
def key (r : Row) : Option Value × Option Value :=
  (r.lookup "time", r.lookup "city_name")

/-- The (time, city_name) keys of a table, one per row. -/
def keyList (df : DF) : List (Option Value × Option Value) := df.map key

/-- One output row of a polars inner join: the left row, followed by the right
row's non-key columns, a colliding column name getting the `_right` suffix. -/
def combineRows (lr rr : Row) : Row :=
  lr ++ (rr.filter (fun c => decide (c.1 ≠ "time" ∧ c.1 ≠ "city_name"))).map
    (fun c => if lr.any (fun d => decide (d.1 = c.1)) then (c.1 ++ "_right", c.2) else c)

/-- `left_df.join(right_df, how="inner", on=["time", "city_name"])`: each pair
of rows agreeing on the join key yields one combined output row. -/
def innerJoin (l r : DF) : DF :=
  l.flatMap (fun lr => (r.filter (fun rr => decide (key rr = key lr))).map (combineRows lr))

/-- The value-level effect of `.cast({"time": pl.Datetime})` on a `time` cell:
a string cell is parsed into a datetime (we carry the string inside the
datetime); a datetime stays as is.  Other dtypes are not exercised by this
pipeline's `time` column and are left unchanged. -/
def castTimeVal : Value → Value
  | .s x => .dt x
  | v => v

/-- `.cast({"time": pl.Datetime})` applied to one row. -/
def castRow (r : Row) : Row :=
  r.map (fun c => if c.1 = "time" then (c.1, castTimeVal c.2) else c)

/-- `.cast({"time": pl.Datetime})` applied to the joined table. -/
def castDF (df : DF) : DF := df.map castRow

/-- `silver_layer.merge_and_clean_dataframes`: scan one bronze batch per
prefix (`load` stands for `pl.scan_parquet` of that prefix's partition), fold
them left-to-right with `reduce` over inner joins on `(time, city_name)`, then
cast `time` to `pl.Datetime`.  `functools.reduce` with no initial value raises
`TypeError` on an empty list, before any output is produced, hence `none`;
`some df` means `df` is sunk to the run's silver directory. -/
def merge_and_clean_dataframes (load : String → DF) (prefixes : List String) :
    Option DF :=
  match prefixes with
  | [] => none
  | p :: ps => some (castDF (ps.foldl (fun acc q => innerJoin acc (load q)) (load p)))

end SilverLayer

/-! ### Concrete silver-layer inputs used by witnesses and counterexamples -/

namespace SilverLayer

/-- Two one-row bronze batches (weather and air quality) sharing the single
key `("2025-01-01T00:00", "Kyiv")`, indexed by prefix. -/
def wLoad : String → DF := fun q =>
  if q = "weather_data" then
    [[("time", Value.s "2025-01-01T00:00"), ("city_name", Value.s "Kyiv"),
      ("temperature_2m", Value.q 5)]]
  else
    [[("time", Value.s "2025-01-01T00:00"), ("city_name", Value.s "Kyiv"),
      ("pm2_5", Value.q 10)]]

/-- The merged output for `wLoad` over
`["weather_data", "air_quality_data"]`. -/
def wOut : DF :=
  castDF (List.foldl (fun acc q => innerJoin acc (wLoad q)) (wLoad "weather_data")
    ["air_quality_data"])

/-- A bronze batch holding the same `(time, city_name)` key twice. -/
def dupLoad : String → DF := fun _ =>
  [[("time", Value.s "t0"), ("city_name", Value.s "K"), ("a", Value.q 1)],
   [("time", Value.s "t0"), ("city_name", Value.s "K"), ("a", Value.q 2)]]

/-- Two batches with distinct-per-batch keys where the first batch's key set
is strictly contained in the second batch's. -/
def nestLoad : String → DF := fun q =>
  if q = "x" then
    [[("time", Value.s "t0"), ("city_name", Value.s "K"), ("a", Value.q 1)]]
  else
    [[("time", Value.s "t0"), ("city_name", Value.s "K"), ("b", Value.q 1)],
     [("time", Value.s "t1"), ("city_name", Value.s "K"), ("b", Value.q 2)]]

end SilverLayer

namespace BronzeLayer

/-- The `hourly` object of a raw landing document: parallel arrays keyed by
field name, in field order. -/
abbrev HourlyObj : Type := List (String × List Value)

/-- A decoded raw JSON landing document: top-level keys (such as `hourly`)
mapping to objects of parallel arrays. -/
abbrev LandingDoc : Type := List (String × HourlyObj)

/-- `pl.from_dict(...)`: equal-length parallel arrays become the columns of a
table with one row per array index, columns in field order.  polars raises a
`ShapeError` on mismatched lengths (`none`); an empty mapping gives an empty
frame. -/
def from_dict (fields : HourlyObj) : Option DF :=
  match fields with
  | [] => some []
  | f0 :: rest =>
    if rest.all (fun f => f.2.length = f0.2.length) then
      some ((List.range f0.2.length).map (fun i =>
        (f0 :: rest).map (fun f => (f.1, f.2.getD i Value.null))))
    else none

/-- `.with_columns(pl.lit(v).alias(name))`: replace the column `name` in place
when it exists, else append it, broadcasting the literal to every row. -/
def with_columns_lit (df : DF) (name : String) (v : Value) : DF :=
  df.map (fun r =>
    if r.any (fun c => decide (c.1 = name)) then
      r.map (fun c => if c.1 = name then (c.1, v) else c)
    else r ++ [(name, v)])

/-- The table built by `bronze_layer._transform_json_data_to_parquet` from the
`hourly` object: `pl.from_dict(data["hourly"]).with_columns(
pl.lit(city_name).alias("city_name"))`. -/
def transform_hourly (hourly : HourlyObj) (city : String) : Option DF :=
  (from_dict hourly).map (fun df => with_columns_lit df "city_name" (Value.s city))

/-- `bronze_layer._transform_json_data_to_parquet` on a decoded landing
document: `data["hourly"]` raises `KeyError` when absent (`none`), else the
hourly object is transformed; `some df` is the table written to
`<out>/<run>/<prefix>/<city>.parquet`. -/
def transform_json_data (doc : LandingDoc) (city : String) : Option DF :=
  match doc.lookup "hourly" with
  | none => none
  | some hourly => transform_hourly hourly city

/-- A concrete hourly object with a two-element `time` array and one
indicator field. -/
def c2Hourly : HourlyObj :=
  [("time", [Value.s "2025-01-01T00:00", Value.s "2025-01-01T01:00"]),
   ("pm2_5", [Value.q 1, Value.q 2])]

end BronzeLayer

namespace LandingZone

/-- Content of a file in the lake: a raw JSON landing document or a columnar
(parquet) table. -/
inductive FileContent : Type where
  | jsonDoc (d : BronzeLayer.LandingDoc) : FileContent
  | table (t : DF) : FileContent
deriving DecidableEq

/-- The filesystem: a map from path strings to file contents. -/
abbrev FS : Type := String → Option FileContent

/-- Writing a file: the path now holds the new content, every other path is
unchanged (an existing file is overwritten). -/
def writeFile (fs : FS) (p : String) (c : FileContent) : FS :=
  fun q => if q = p then some c else fs q

/-- The upstream HTTP response observed by one fetch invocation: status code
and (decoded) body. -/
structure ApiResponse : Type where
  status : Nat
  body : BronzeLayer.LandingDoc

/-- `landing_zone._get_data_from_api`: on status 200 the raw response body is
written as-is to `<write_path>/<city_name>.json`; any other status raises
`requests.HTTPError("Incorrect status code")` before any write.  (The request
parameters — URL, indicator list, coordinates — only shape the upstream
response and are summarized by `resp`.) -/
def get_data_from_api (resp : ApiResponse) (writePath cityName : String)
    (fs : FS) : Except String FS :=
  if resp.status = 200 then
    .ok (writeFile fs (writePath ++ "/" ++ cityName ++ ".json")
      (.jsonDoc resp.body))
  else
    .error "Incorrect status code"

/-- `bronze_layer._transform_json_data_to_parquet` as a filesystem step: read
the landing JSON at `inputPath`, transform it, and write the bronze table to
`<outputDir>/<cityName>.parquet`; a missing or malformed input raises. -/
def transform_json_data_to_parquet (inputPath outputDir cityName : String)
    (fs : FS) : Except String FS :=
  match fs inputPath with
  | some (.jsonDoc d) =>
    match BronzeLayer.transform_json_data d cityName with
    | some t =>
      .ok (writeFile fs (outputDir ++ "/" ++ cityName ++ ".parquet") (.table t))
    | none => .error "malformed landing document"
  | _ => .error "missing landing file"

/-- The fetch stage followed by the bronze transform stage for one
(run, indicator-set, city): the transform reads exactly the path the fetch
wrote (`<landingDir>/<cityName>.json`). -/
def fetch_then_transform (resp : ApiResponse) (landingDir bronzeDir cityName : String)
    (fs : FS) : Except String FS :=
  match get_data_from_api resp landingDir cityName fs with
  | .error e => .error e
  | .ok fs1 =>
    transform_json_data_to_parquet (landingDir ++ "/" ++ cityName ++ ".json")
      bronzeDir cityName fs1

/-- A concrete landing document for the idempotence witness. -/
def c9Doc : BronzeLayer.LandingDoc :=
  [("hourly", [("time", [Value.s "2025-01-01T00:00"]),
               ("pm2_5", [Value.q 7])])]

/-- The filesystem state after one fetch-then-transform pass over `c9Doc`
starting from an empty lake. -/
def c9Fs : FS :=
  writeFile
    (writeFile (fun _ => none) ("lz" ++ "/" ++ "Kyiv" ++ ".json")
      (.jsonDoc c9Doc))
    ("bz" ++ "/" ++ "Kyiv" ++ ".parquet")
    (.table [[("time", Value.s "2025-01-01T00:00"), ("pm2_5", Value.q 7),
      ("city_name", Value.s "Kyiv")]])

end LandingZone

namespace GoldenLayer

/-- Numeric view of a cell: a rational for a numeric cell, `none` for a null
or non-numeric cell (polars aggregations skip nulls). -/
def asQ : Value → Option ℚ
  | .q x => some x
  | _ => none

/-- The numeric value of column `col` in a row, `none` when absent/null. -/
def getQ (r : Row) (col : String) : Option ℚ := (r.lookup col).bind asQ

/-- `pl.col(col).mean()` over a group: the arithmetic mean of the non-null
values, null (`none`) when there are none. -/
def meanCol (rows : DF) (col : String) : Option ℚ :=
  if (rows.filterMap (fun r => getQ r col)).length = 0 then none
  else some ((rows.filterMap (fun r => getQ r col)).sum /
    ((rows.filterMap (fun r => getQ r col)).length : ℚ))

/-- Store an optional mean back into a cell (null when undefined). -/
def optQVal : Option ℚ → Value
  | none => .null
  | some x => .q x

/-- Ascending comparison on optional numeric sort keys; polars `sort` places
nulls first by default. -/
def qLe : Option ℚ → Option ℚ → Bool
  | some x, some y => decide (x ≤ y)
  | none, _ => true
  | some _, none => false

/-- Row comparison for `.sort(col)` on a numeric column. -/
def rowLeBy (col : String) (a b : Row) : Bool := qLe (getQ a col) (getQ b col)

/-- `.sort(col)` ascending on a numeric column. -/
def sortByCol (col : String) (df : DF) : DF :=
  List.insertionSort (fun a b => rowLeBy col a b = true) df

/-- The wind-speed band of a row, after `analyze_wind_effect`'s
`when/then/otherwise` chain on `wind_speed_10m` (a null wind speed falls
through to the `otherwise` branch). -/
def windCategory (r : Row) : String :=
  match getQ r "wind_speed_10m" with
  | some w =>
    if w ≤ 3 then "Light (0-3 km/h)"
    else if w ≤ 7 then "Gentle (3-7 km/h)"
    else if w ≤ 12 then "Moderate (7-12 km/h)"
    else "Strong (>12 km/h)"
  | none => "Strong (>12 km/h)"

/-- One aggregated output row of `analyze_wind_effect` for one band. -/
def windAggRow (df : DF) (cat : String) : Row :=
  [("wind_category", Value.s cat),
   ("avg_pm2_5", optQVal (meanCol
     (df.filter (fun r => decide (windCategory r = cat))) "pm2_5")),
   ("avg_pm10", optQVal (meanCol
     (df.filter (fun r => decide (windCategory r = cat))) "pm10")),
   ("avg_ozone", optQVal (meanCol
     (df.filter (fun r => decide (windCategory r = cat))) "ozone")),
   ("avg_wind_speed", optQVal (meanCol
     (df.filter (fun r => decide (windCategory r = cat))) "wind_speed_10m")),
   ("count", Value.q
     ((df.filter (fun r => decide (windCategory r = cat))).length : ℚ))]

/-- `golden_layer.analyze_wind_effect`'s returned table: group by wind band
(one row per band present in the input), aggregate the means and the row
count, sort ascending by mean wind speed.  The Pearson correlations the
source also computes are only logged, never returned, and cannot raise. -/
def analyze_wind_effect (df : DF) : DF :=
  sortByCol "avg_wind_speed" (((df.map windCategory).dedup).map (windAggRow df))

/-- `pl.col("time").dt.hour()` for a datetime carried as an ISO string
`YYYY-MM-DDTHH:MM...`: the two digits at offset 11. -/
def isoHour (x : String) : Nat :=
  match x.data.drop 11 with
  | c1 :: c2 :: _ => 10 * (c1.toNat - 48) + (c2.toNat - 48)
  | _ => 0

/-- `df.with_columns(pl.col("time").dt.hour().alias("hour"))`: pair each row
with its hour of day; `dt.hour` requires a datetime `time` column, so any row
without one fails the whole frame (`none`). -/
def hourlyRows (df : DF) : Option (List (Row × Nat)) :=
  df.mapM (fun r =>
    match r.lookup "time" with
    | some (.dt x) => some (r, isoHour x)
    | _ => none)

/-- Mean fine-particulate level of one hour's group. -/
def hourMean (pairs : List (Row × Nat)) (h : Nat) : Option ℚ :=
  meanCol ((pairs.filter (fun pr => decide (pr.2 = h))).map Prod.fst) "pm2_5"

/-- One aggregated output row of `analyze_hourly_patterns` for one hour. -/
def hourAggRow (pairs : List (Row × Nat)) (h : Nat) : Row :=
  [("hour", Value.q (h : ℚ)),
   ("avg_pm2_5", optQVal (hourMean pairs h)),
   ("avg_temperature_2m", optQVal (meanCol
     ((pairs.filter (fun pr => decide (pr.2 = h))).map Prod.fst)
     "temperature_2m")),
   ("avg_wind_speed_10m", optQVal (meanCol
     ((pairs.filter (fun pr => decide (pr.2 = h))).map Prod.fst)
     "wind_speed_10m")),
   ("avg_relative_humidity_2m", optQVal (meanCol
     ((pairs.filter (fun pr => decide (pr.2 = h))).map Prod.fst)
     "relative_humidity_2m")),
   ("count", Value.q
     (((pairs.filter (fun pr => decide (pr.2 = h))).map Prod.fst).length : ℚ))]

/-- The `hourly_stats` table: one row per distinct hour present, sorted
ascending by hour. -/
def hourlyStats (pairs : List (Row × Nat)) : DF :=
  (List.insertionSort (fun a b => a ≤ b) ((pairs.map Prod.snd).dedup)).map
    (hourAggRow pairs)

/-- `Series.max`: greatest non-null value, null for an empty series. -/
def seriesMax (l : List ℚ) : Option ℚ :=
  l.foldl (fun acc x =>
    match acc with
    | none => some x
    | some m => some (max m x)) none

/-- `Series.min`: least non-null value, null for an empty series. -/
def seriesMin (l : List ℚ) : Option ℚ :=
  l.foldl (fun acc x =>
    match acc with
    | none => some x
    | some m => some (min m x)) none

/-- `stats.filter(pl.col("avg_pm2_5") == target)["hour"].item()`: comparison
with a null target selects nothing; `.item()` raises unless the selection has
exactly one row. -/
def hourItem (stats : DF) (target : Option ℚ) : Option Value :=
  match target with
  | none => none
  | some m =>
    match stats.filter (fun r => decide (getQ r "avg_pm2_5" = some m)) with
    | [r] => r.lookup "hour"
    | _ => none

/-- `golden_layer.analyze_hourly_patterns`: build the hourly stats table, then
log the peak and lowest mean-PM2.5 hours via `.item()` — which raises when the
argmax/argmin row is not unique — and return the table.  The result carries
the returned table together with the two logged hour values; `none` models the
raised exception. -/
def analyze_hourly_patterns (df : DF) : Option (DF × Value × Value) :=
  match hourlyRows df with
  | none => none
  | some pairs =>
    match hourItem (hourlyStats pairs) (seriesMax
        ((hourlyStats pairs).filterMap (fun r => getQ r "avg_pm2_5"))),
      hourItem (hourlyStats pairs) (seriesMin
        ((hourlyStats pairs).filterMap (fun r => getQ r "avg_pm2_5"))) with
    | some hmax, some hmin => some (hourlyStats pairs, hmax, hmin)
    | _, _ => none

/-- `(pl.col("precipitation") > 0).alias("has_precipitation")` for one row:
null precipitation gives a null flag. -/
def precipFlag (r : Row) : Value :=
  match getQ r "precipitation" with
  | some p => Value.b (decide (p > 0))
  | none => Value.null

/-- Sort rank of a flag cell: polars sorts booleans ascending with nulls
first. -/
def flagRank : Value → ℕ
  | Value.null => 0
  | Value.b false => 1
  | Value.b true => 2
  | _ => 3

/-- One aggregated output row of `analyze_precipitation_effect`. -/
def precipAggRow (df : DF) (v : Value) : Row :=
  [("has_precipitation", v),
   ("avg_pm2_5", optQVal (meanCol
     (df.filter (fun r => decide (precipFlag r = v))) "pm2_5")),
   ("avg_pm10", optQVal (meanCol
     (df.filter (fun r => decide (precipFlag r = v))) "pm10")),
   ("avg_ozone", optQVal (meanCol
     (df.filter (fun r => decide (precipFlag r = v))) "ozone")),
   ("avg_carbon_monoxide", optQVal (meanCol
     (df.filter (fun r => decide (precipFlag r = v))) "carbon_monoxide")),
   ("count", Value.q
     ((df.filter (fun r => decide (precipFlag r = v))).length : ℚ))]

/-- `golden_layer.analyze_precipitation_effect`'s returned table: group by the
precipitation flag and sort by it (sorting the group keys before building the
aggregate rows is equivalent, as each row's flag is its group key).  The
PM2.5 improvement percentage the source also computes is only logged, guarded
by both groups being non-empty, and cannot raise. -/
def analyze_precipitation_effect (df : DF) : DF :=
  (List.insertionSort (fun a b => flagRank a ≤ flagRank b)
    ((df.map precipFlag).dedup)).map (precipAggRow df)

/-- The temperature band of a row, after
`analyze_temperature_humidity_relationship`'s `when/then/otherwise` chain on
`temperature_2m` (a null temperature falls through to `otherwise`). -/
def tempCategory (r : Row) : String :=
  match getQ r "temperature_2m" with
  | some t =>
    if t < 0 then "Below 0°C"
    else if t < 10 then "0-10°C"
    else if t < 20 then "10-20°C"
    else if t < 30 then "20-30°C"
    else "Above 30°C"
  | none => "Above 30°C"

/-- One aggregated output row of
`analyze_temperature_humidity_relationship`. -/
def tempAggRow (df : DF) (cat : String) : Row :=
  [("temp_category", Value.s cat),
   ("avg_pm2_5", optQVal (meanCol
     (df.filter (fun r => decide (tempCategory r = cat))) "pm2_5")),
   ("avg_ozone", optQVal (meanCol
     (df.filter (fun r => decide (tempCategory r = cat))) "ozone")),
   ("avg_temperature", optQVal (meanCol
     (df.filter (fun r => decide (tempCategory r = cat))) "temperature_2m")),
   ("count", Value.q
     ((df.filter (fun r => decide (tempCategory r = cat))).length : ℚ))]

/-- `golden_layer.analyze_temperature_humidity_relationship`'s returned table:
group by temperature band, sort ascending by mean temperature.  The four
Pearson correlations the source also computes are only logged and cannot
raise. -/
def analyze_temperature_humidity_relationship (df : DF) : DF :=
  sortByCol "avg_temperature" (((df.map tempCategory).dedup).map (tempAggRow df))

/-- `golden_layer.calculate_analytics`: run the four analyses over the merged
batch, then write each returned table to its fixed-named CSV in the run's
golden directory.  Only `analyze_hourly_patterns` can raise (on a non-unique
peak/lowest hour or a non-datetime time column); the derived logged figures —
correlations, PM2.5 improvement percentage, peak hours — are not written.
`some files` is the list of (file name, table contents) written. -/
def calculate_analytics (df : DF) : Option (List (String × DF)) :=
  match analyze_hourly_patterns df with
  | none => none
  | some (stats, _, _) =>
    some [("precipitation.csv", analyze_precipitation_effect df),
          ("wind.csv", analyze_wind_effect df),
          ("hourly_patterns.csv", stats),
          ("humidity_df.csv", analyze_temperature_humidity_relationship df)]

/-- The spec scenario input for wind bands: four rows with wind speeds
2, 5, 9, 15 and distinct indicator values. -/
def windScenario : DF :=
  [[("wind_speed_10m", Value.q 2), ("pm2_5", Value.q 8),
    ("pm10", Value.q 16), ("ozone", Value.q 30)],
   [("wind_speed_10m", Value.q 5), ("pm2_5", Value.q 6),
    ("pm10", Value.q 12), ("ozone", Value.q 28)],
   [("wind_speed_10m", Value.q 9), ("pm2_5", Value.q 4),
    ("pm10", Value.q 8), ("ozone", Value.q 26)],
   [("wind_speed_10m", Value.q 15), ("pm2_5", Value.q 2),
    ("pm10", Value.q 4), ("ozone", Value.q 24)]]

/-- The expected wind table for `windScenario`: all four bands, count 1 each,
in Light, Gentle, Moderate, Strong order. -/
def windScenarioTable : DF :=
  [[("wind_category", Value.s "Light (0-3 km/h)"), ("avg_pm2_5", Value.q 8),
    ("avg_pm10", Value.q 16), ("avg_ozone", Value.q 30),
    ("avg_wind_speed", Value.q 2), ("count", Value.q 1)],
   [("wind_category", Value.s "Gentle (3-7 km/h)"), ("avg_pm2_5", Value.q 6),
    ("avg_pm10", Value.q 12), ("avg_ozone", Value.q 28),
    ("avg_wind_speed", Value.q 5), ("count", Value.q 1)],
   [("wind_category", Value.s "Moderate (7-12 km/h)"), ("avg_pm2_5", Value.q 4),
    ("avg_pm10", Value.q 8), ("avg_ozone", Value.q 26),
    ("avg_wind_speed", Value.q 9), ("count", Value.q 1)],
   [("wind_category", Value.s "Strong (>12 km/h)"), ("avg_pm2_5", Value.q 2),
    ("avg_pm10", Value.q 4), ("avg_ozone", Value.q 24),
    ("avg_wind_speed", Value.q 15), ("count", Value.q 1)]]

/-- A merged batch with two hours tied for the maximal (and minimal) mean
PM2.5 level. -/
def tieDf : DF :=
  [[("time", Value.dt "2025-01-01T00:00"), ("pm2_5", Value.q 5)],
   [("time", Value.dt "2025-01-01T01:00"), ("pm2_5", Value.q 5)]]

/-- A merged batch whose two hours have distinct mean PM2.5 levels. -/
def peakDf : DF :=
  [[("time", Value.dt "2025-01-01T00:00"), ("pm2_5", Value.q 1)],
   [("time", Value.dt "2025-01-01T01:00"), ("pm2_5", Value.q 2)]]

/-- `tieDf` paired with its hours. -/
def tiePairs : List (Row × Nat) :=
  [([("time", Value.dt "2025-01-01T00:00"), ("pm2_5", Value.q 5)], 0),
   ([("time", Value.dt "2025-01-01T01:00"), ("pm2_5", Value.q 5)], 1)]

/-- `peakDf` paired with its hours. -/
def peakPairs : List (Row × Nat) :=
  [([("time", Value.dt "2025-01-01T00:00"), ("pm2_5", Value.q 1)], 0),
   ([("time", Value.dt "2025-01-01T01:00"), ("pm2_5", Value.q 2)], 1)]

/-- A one-row merged batch exercising all four golden analyses. -/
def goldenDf : DF :=
  [[("time", Value.dt "2025-01-01T05:00"), ("pm2_5", Value.q 3),
    ("pm10", Value.q 4), ("ozone", Value.q 5), ("carbon_monoxide", Value.q 6),
    ("precipitation", Value.q 0), ("wind_speed_10m", Value.q 2),
    ("temperature_2m", Value.q 15), ("relative_humidity_2m", Value.q 50)]]

/-- `goldenDf` paired with its hours. -/
def goldenPairs : List (Row × Nat) :=
  [([("time", Value.dt "2025-01-01T05:00"), ("pm2_5", Value.q 3),
     ("pm10", Value.q 4), ("ozone", Value.q 5), ("carbon_monoxide", Value.q 6),
     ("precipitation", Value.q 0), ("wind_speed_10m", Value.q 2),
     ("temperature_2m", Value.q 15), ("relative_humidity_2m", Value.q 50)], 5)]

/-- The four files `calculate_analytics` writes for `goldenDf`. -/
def goldenFiles : List (String × DF) :=
  [("precipitation.csv",
    [[("has_precipitation", Value.b false), ("avg_pm2_5", Value.q 3),
      ("avg_pm10", Value.q 4), ("avg_ozone", Value.q 5),
      ("avg_carbon_monoxide", Value.q 6), ("count", Value.q 1)]]),
   ("wind.csv",
    [[("wind_category", Value.s "Light (0-3 km/h)"), ("avg_pm2_5", Value.q 3),
      ("avg_pm10", Value.q 4), ("avg_ozone", Value.q 5),
      ("avg_wind_speed", Value.q 2), ("count", Value.q 1)]]),
   ("hourly_patterns.csv",
    [[("hour", Value.q 5), ("avg_pm2_5", Value.q 3),
      ("avg_temperature_2m", Value.q 15), ("avg_wind_speed_10m", Value.q 2),
      ("avg_relative_humidity_2m", Value.q 50), ("count", Value.q 1)]]),
   ("humidity_df.csv",
    [[("temp_category", Value.s "10-20°C"), ("avg_pm2_5", Value.q 3),
      ("avg_ozone", Value.q 5), ("avg_temperature", Value.q 15),
      ("count", Value.q 1)]])]

end GoldenLayer

/-! ## Theorems -/

/-- C3: the four stages never derive one common run-directory component.  The
silver merger requires a `datetime` (it calls `.isoformat()`), while the
fetcher, bronze transformer and golden analyzer require a `str` (they use the
argument as a path segment), so for every execution-time argument at least one
of the four stage derivations raises; evaluations at the two inputs actually
supplied by the repository's entry points (the DAG's rendered date string and
the runner's `datetime`) exhibit both failures. -/
theorem run_segment_inconsistent :
    (∀ t : PyTime,
      ((silverRunSegment t).isOk && (landingRunSegment t).isOk &&
        (bronzeRunSegment t).isOk && (goldenRunSegment t).isOk) = false) ∧
    silverRunSegment (.str "2025-01-01") = .error "AttributeError" ∧
    landingRunSegment (.str "2025-01-01") = .ok "2025-01-01" ∧
    bronzeRunSegment (.str "2025-01-01") = .ok "2025-01-01" ∧
    goldenRunSegment (.str "2025-01-01") = .ok "2025-01-01" ∧
    silverRunSegment (.dt ⟨"2025-10-12T08:00:00"⟩) = .ok "2025-10-12T08:00:00" ∧
    landingRunSegment (.dt ⟨"2025-10-12T08:00:00"⟩) = .error "TypeError" := by
  refine ⟨fun t => ?_, rfl, rfl, rfl, rfl, rfl, rfl⟩
  cases t <;> rfl

/-- C7: invoked with an empty prefix list, the silver merger fails (the
`reduce` over joins raises on an empty iterable) and no merged file is
written. -/
theorem merge_empty_prefixes_fails (load : String → DF) :
    SilverLayer.merge_and_clean_dataframes load [] = none := rfl

namespace SilverLayer

theorem lookup_eq_none_of_names {k : String} {l : Row}
    (h : ∀ c ∈ l, c.1 ≠ k) : l.lookup k = none := by
  induction l with
  | nil => rfl
  | cons c l ih =>
    obtain ⟨n, v⟩ := c
    have hne : (k == n) = false := by
      have : n ≠ k := h (n, v) (List.mem_cons_self _ _)
      simp [beq_iff_eq]
      exact fun he => this he.symm
    simp only [List.lookup, hne]
    exact ih fun c hc => h c (List.mem_cons_of_mem _ hc)

theorem append_right_ne_time (s : String) : s ++ "_right" ≠ "time" := by
  intro h
  have hlen := congrArg String.length h
  rw [String.length_append] at hlen
  have h6 : "_right".length = 6 := rfl
  have h4 : "time".length = 4 := rfl
  omega

theorem append_right_ne_city (s : String) : s ++ "_right" ≠ "city_name" := by
  intro h
  have hlen := congrArg String.length h
  rw [String.length_append] at hlen
  have h6 : "_right".length = 6 := rfl
  have h9 : "city_name".length = 9 := rfl
  have h3 : s.data.length = 3 := by
    have hl : s.length = 3 := by omega
    have hd : s.length = s.data.length := rfl
    omega
  have hdata := congrArg String.data h
  rw [String.data_append] at hdata
  have hidx := congrArg (fun l => l[3]?) hdata
  simp only at hidx
  rw [List.getElem?_append_right (by omega)] at hidx
  rw [h3] at hidx
  have h1 : "_right".data[3 - 3]? = some '_' := rfl
  have h2 : "city_name".data[3]? = some 'y' := rfl
  rw [h1, h2] at hidx
  exact absurd (Option.some.inj hidx) (by decide)

/-- The right-hand columns appended by `combineRows` never shadow a join-key
column, so the key of a joined row is the key of its left constituent. -/
theorem key_combineRows (lr rr : Row) : key (combineRows lr rr) = key lr := by
  have hnames : ∀ c ∈ (rr.filter
      (fun c => decide (c.1 ≠ "time" ∧ c.1 ≠ "city_name"))).map
      (fun c => if lr.any (fun d => decide (d.1 = c.1))
        then (c.1 ++ "_right", c.2) else c),
      c.1 ≠ "time" ∧ c.1 ≠ "city_name" := by
    intro c hc
    obtain ⟨c', hc', rfl⟩ := List.mem_map.mp hc
    have hfil := (List.mem_filter.mp hc').2
    have hne : c'.1 ≠ "time" ∧ c'.1 ≠ "city_name" := by
      simpa using hfil
    by_cases hany : lr.any (fun d => decide (d.1 = c'.1))
    · simp only [hany, if_pos]
      exact ⟨append_right_ne_time _, append_right_ne_city _⟩
    · simp only [hany, if_neg]
      simpa using hne
  have htime : ((rr.filter
      (fun c => decide (c.1 ≠ "time" ∧ c.1 ≠ "city_name"))).map
      (fun c => if lr.any (fun d => decide (d.1 = c.1))
        then (c.1 ++ "_right", c.2) else c)).lookup "time" = none :=
    lookup_eq_none_of_names fun c hc => (hnames c hc).1
  have hcity : ((rr.filter
      (fun c => decide (c.1 ≠ "time" ∧ c.1 ≠ "city_name"))).map
      (fun c => if lr.any (fun d => decide (d.1 = c.1))
        then (c.1 ++ "_right", c.2) else c)).lookup "city_name" = none :=
    lookup_eq_none_of_names fun c hc => (hnames c hc).2
  unfold combineRows key
  rw [List.lookup_append, List.lookup_append, htime, hcity]
  simp

/-- Key membership in an inner join: a key appears among the joined rows iff
it appears on both sides. -/
theorem mem_keyList_innerJoin {k : Option Value × Option Value} {l r : DF} :
    k ∈ keyList (innerJoin l r) ↔ k ∈ keyList l ∧ k ∈ keyList r := by
  unfold keyList innerJoin
  constructor
  · intro hk
    obtain ⟨row, hrow, rfl⟩ := List.mem_map.mp hk
    obtain ⟨lr, hlr, hrow2⟩ := List.mem_flatMap.mp hrow
    obtain ⟨rr, hrr', rfl⟩ := List.mem_map.mp hrow2
    obtain ⟨hrr, hkeq⟩ := List.mem_filter.mp hrr'
    have hkeq' : key rr = key lr := of_decide_eq_true hkeq
    rw [key_combineRows]
    exact ⟨List.mem_map.mpr ⟨lr, hlr, rfl⟩,
      List.mem_map.mpr ⟨rr, hrr, hkeq'⟩⟩
  · rintro ⟨h1, h2⟩
    obtain ⟨lr, hlr, rfl⟩ := List.mem_map.mp h1
    obtain ⟨rr, hrr, hkr⟩ := List.mem_map.mp h2
    exact List.mem_map.mpr ⟨combineRows lr rr,
      List.mem_flatMap.mpr ⟨lr, hlr, List.mem_map.mpr
        ⟨rr, List.mem_filter.mpr ⟨hrr, decide_eq_true hkr⟩, rfl⟩⟩,
      key_combineRows lr rr⟩

/-- Key membership in the left fold of inner joins: a key survives iff it is
present in the initial batch and in every folded batch. -/
theorem mem_keyList_foldJoin {k : Option Value × Option Value}
    (dfs : List DF) (init : DF) :
    k ∈ keyList (dfs.foldl innerJoin init) ↔
      k ∈ keyList init ∧ ∀ d ∈ dfs, k ∈ keyList d := by
  induction dfs generalizing init with
  | nil => simp
  | cons d ds ih =>
    rw [List.foldl_cons, ih]
    rw [mem_keyList_innerJoin]
    constructor
    · rintro ⟨⟨h1, h2⟩, h3⟩
      exact ⟨h1, by
        intro d' hd'
        rcases List.mem_cons.mp hd' with rfl | hmem
        · exact h2
        · exact h3 d' hmem⟩
    · rintro ⟨h1, h2⟩
      exact ⟨⟨h1, h2 d (List.mem_cons_self _ _)⟩,
        fun d' hd' => h2 d' (List.mem_cons_of_mem _ hd')⟩

theorem castRow_cons (n : String) (v : Value) (l : Row) :
    castRow ((n, v) :: l) =
      (if n = "time" then (n, castTimeVal v) else (n, v)) :: castRow l := rfl

theorem lookup_castRow_time (r : Row) :
    (castRow r).lookup "time" = (r.lookup "time").map castTimeVal := by
  induction r with
  | nil => rfl
  | cons c l ih =>
    obtain ⟨n, v⟩ := c
    rw [castRow_cons]
    by_cases hn : n = "time"
    · subst hn
      rw [if_pos rfl]
      simp [List.lookup]
    · rw [if_neg hn]
      have hbeq : ("time" == n) = false := by
        simp [beq_iff_eq]
        exact fun he => hn he.symm
      simp only [List.lookup, hbeq]
      exact ih

theorem lookup_castRow_city (r : Row) :
    (castRow r).lookup "city_name" = r.lookup "city_name" := by
  induction r with
  | nil => rfl
  | cons c l ih =>
    obtain ⟨n, v⟩ := c
    rw [castRow_cons]
    by_cases hn : n = "time"
    · subst hn
      rw [if_pos rfl]
      have hbeq : ("city_name" == "time") = false := by decide
      simp only [List.lookup, hbeq]
      exact ih
    · rw [if_neg hn]
      cases hbeq : ("city_name" == n) with
      | true => simp only [List.lookup, hbeq]
      | false => simp only [List.lookup, hbeq]; exact ih

theorem key_castRow (r : Row) :
    key (castRow r) = ((key r).1.map castTimeVal, (key r).2) := by
  unfold key
  rw [lookup_castRow_time, lookup_castRow_city]

theorem keyList_castDF (df : DF) :
    keyList (castDF df) = (keyList df).map (fun k => (k.1.map castTimeVal, k.2)) := by
  unfold keyList castDF
  rw [List.map_map, List.map_map]
  exact List.map_congr_left fun r _ => key_castRow r

/-- Every row of a fold of inner joins takes its `time` cell from some row of
the initial (leftmost) batch. -/
theorem time_foldJoin (dfs : List DF) (init : DF) :
    ∀ row ∈ dfs.foldl innerJoin init,
      ∃ r0 ∈ init, row.lookup "time" = r0.lookup "time" := by
  induction dfs generalizing init with
  | nil => exact fun row h => ⟨row, h, rfl⟩
  | cons d ds ih =>
    intro row hrow
    rw [List.foldl_cons] at hrow
    obtain ⟨r1, hr1, heq⟩ := ih (innerJoin init d) row hrow
    unfold innerJoin at hr1
    obtain ⟨lr, hlr, h2⟩ := List.mem_flatMap.mp hr1
    obtain ⟨rr, _, rfl⟩ := List.mem_map.mp h2
    refine ⟨lr, hlr, ?_⟩
    rw [heq]
    exact congrArg Prod.fst (key_combineRows lr rr)

/-- C1: for a non-empty ordered prefix list the silver merger is the
left-to-right fold of inner joins on `(time, city_name)` of the per-prefix
bronze batches, in caller order, followed by a cast of `time` to a datetime
type; a `(timestamp, city)` key appears in the joined data iff it is present
in every loaded batch, and — since bronze batches store `time` as strings —
a datetime key appears in the cast output iff the corresponding string key is
present in every loaded batch, every output row carrying a datetime `time`
cell. -/
theorem merge_inner_join_spec (load : String → DF) (p : String) (ps : List String) :
    merge_and_clean_dataframes load (p :: ps) =
      some (castDF ((ps.map load).foldl innerJoin (load p))) ∧
    (∀ k, k ∈ keyList ((ps.map load).foldl innerJoin (load p)) ↔
      ∀ q ∈ p :: ps, k ∈ keyList (load q)) ∧
    ((∀ q ∈ p :: ps, ∀ r ∈ load q, ∃ x, r.lookup "time" = some (Value.s x)) →
      ∀ (x : String) (c : Option Value),
        ((some (Value.dt x), c) ∈
            keyList (castDF ((ps.map load).foldl innerJoin (load p))) ↔
          ∀ q ∈ p :: ps, (some (Value.s x), c) ∈ keyList (load q))) ∧
    ((∀ r ∈ load p, ∃ x, r.lookup "time" = some (Value.s x)) →
      ∀ r ∈ castDF ((ps.map load).foldl innerJoin (load p)),
        ∃ x, r.lookup "time" = some (Value.dt x)) := by
  have hiff : ∀ k, k ∈ keyList ((ps.map load).foldl innerJoin (load p)) ↔
      ∀ q ∈ p :: ps, k ∈ keyList (load q) := by
    intro k
    rw [mem_keyList_foldJoin]
    constructor
    · rintro ⟨h1, h2⟩ q hq
      rcases List.mem_cons.mp hq with rfl | hq'
      · exact h1
      · exact h2 (load q) (List.mem_map_of_mem load hq')
    · intro hall
      refine ⟨hall p (List.mem_cons_self _ _), ?_⟩
      intro d hd
      obtain ⟨q, hq, rfl⟩ := List.mem_map.mp hd
      exact hall q (List.mem_cons_of_mem _ hq)
  refine ⟨?_, hiff, ?_, ?_⟩
  · unfold merge_and_clean_dataframes
    rw [List.foldl_map]
  · intro hstr x c
    rw [keyList_castDF]
    constructor
    · intro hmem
      obtain ⟨k, hk, hkeq⟩ := List.mem_map.mp hmem
      have hkp : k ∈ keyList (load p) :=
        ((mem_keyList_foldJoin (ps.map load) (load p)).mp hk).1
      obtain ⟨r, hr, rfl⟩ := List.mem_map.mp hkp
      obtain ⟨y, hy⟩ := hstr p (List.mem_cons_self _ _) r hr
      have h1 : (key r).1 = some (Value.s y) := hy
      have hky : ((key r).1.map castTimeVal, (key r).2) =
          (some (Value.dt y), (key r).2) := by
        rw [h1]; rfl
      rw [hky] at hkeq
      have hxy : y = x := by
        have := congrArg Prod.fst hkeq
        simpa [Value.dt.injEq] using this
      have hc : (key r).2 = c := congrArg Prod.snd hkeq
      subst hxy
      have hkr : key r = (some (Value.s y), c) := by
        rw [Prod.ext_iff]
        exact ⟨h1, hc⟩
      rw [← hkr]
      exact (hiff (key r)).mp hk
    · intro hall
      have hj : (some (Value.s x), c) ∈
          keyList ((ps.map load).foldl innerJoin (load p)) := (hiff _).mpr hall
      refine List.mem_map.mpr ⟨(some (Value.s x), c), hj, ?_⟩
      rfl
  · intro hstr r hr
    obtain ⟨r0, hr0, rfl⟩ := List.mem_map.mp hr
    obtain ⟨rb, hrb, heq⟩ := time_foldJoin (ps.map load) (load p) r0 hr0
    obtain ⟨x, hx⟩ := hstr rb hrb
    refine ⟨x, ?_⟩
    rw [lookup_castRow_time, heq, hx]
    rfl

/-- Witness for C1 at a concrete two-prefix instance: the datetime key of the
merged output corresponds to the string key present in both bronze
batches. -/
theorem merge_inner_join_spec_witness :
    ((some (Value.dt "2025-01-01T00:00"), some (Value.s "Kyiv")) ∈
      keyList wOut) ∧
    merge_and_clean_dataframes wLoad ["weather_data", "air_quality_data"] =
      some wOut := by
  have h := merge_inner_join_spec wLoad "weather_data" ["air_quality_data"]
  have hstr : ∀ q ∈ ["weather_data", "air_quality_data"], ∀ r ∈ wLoad q,
      ∃ x, r.lookup "time" = some (Value.s x) := by
    intro q hq r hr
    rcases List.mem_cons.mp hq with rfl | hq'
    · refine ⟨"2025-01-01T00:00", ?_⟩
      have hrw : r = [("time", Value.s "2025-01-01T00:00"),
          ("city_name", Value.s "Kyiv"), ("temperature_2m", Value.q 5)] := by
        simpa [wLoad] using hr
      rw [hrw]; rfl
    · rcases List.mem_cons.mp hq' with rfl | h0
      · refine ⟨"2025-01-01T00:00", ?_⟩
        have hrw : r = [("time", Value.s "2025-01-01T00:00"),
            ("city_name", Value.s "Kyiv"), ("pm2_5", Value.q 10)] := by
          simpa [wLoad] using hr
        rw [hrw]; rfl
      · cases h0
  constructor
  · exact ((h.2.2.1 hstr) "2025-01-01T00:00" (some (Value.s "Kyiv"))).mpr (by decide)
  · exact h.1

/-- Count of elements equal to `k` in a duplicate-free list. -/
theorem countP_eq_of_nodup {α : Type} [DecidableEq α] (l : List α)
    (hl : l.Nodup) (k : α) :
    l.countP (fun x => decide (x = k)) = if k ∈ l then 1 else 0 := by
  induction l with
  | nil => simp
  | cons a l ih =>
    rw [List.nodup_cons] at hl
    rw [List.countP_cons]
    by_cases ha : a = k
    · subst ha
      have hnk : a ∉ l := hl.1
      rw [ih hl.2]
      simp [hnk]
    · have ha' : k ≠ a := fun h => ha h.symm
      rw [ih hl.2]
      simp [List.mem_cons, ha, ha']

/-- If the right table's keys are duplicate-free, the inner join keeps exactly
the left keys that occur on the right, in left order. -/
theorem keyList_innerJoin_of_nodup (l r : DF) (hr : (keyList r).Nodup) :
    keyList (innerJoin l r) =
      (keyList l).filter (fun k => decide (k ∈ keyList r)) := by
  induction l with
  | nil => rfl
  | cons lr l' ih =>
    have hcons : innerJoin (lr :: l') r =
        ((r.filter (fun rr => decide (key rr = key lr))).map (combineRows lr)) ++
          innerJoin l' r := by
      unfold innerJoin
      rw [List.flatMap_cons]
    rw [hcons]
    unfold keyList at *
    rw [List.map_append, ih, List.map_cons, List.filter_cons]
    have hhead : ((r.filter (fun rr => decide (key rr = key lr))).map
        (combineRows lr)).map key =
        if key lr ∈ r.map key then [key lr] else [] := by
      rw [List.map_map]
      have hconst : ((r.filter (fun rr => decide (key rr = key lr))).map
          (key ∘ combineRows lr)) =
          ((r.filter (fun rr => decide (key rr = key lr))).map
            (fun _ => key lr)) :=
        List.map_congr_left fun rr _ => key_combineRows lr rr
      rw [hconst, List.map_const']
      have hlen : (r.filter (fun rr => decide (key rr = key lr))).length =
          if key lr ∈ r.map key then 1 else 0 := by
        rw [← List.countP_eq_length_filter]
        have hcp : r.countP (fun rr => decide (key rr = key lr)) =
            (r.map key).countP (fun x => decide (x = key lr)) := by
          rw [List.countP_map]
          rfl
        rw [hcp, countP_eq_of_nodup (r.map key) hr (key lr)]
        by_cases hm : key lr ∈ List.map key r
        · rw [if_pos hm, if_pos hm]
        · rw [if_neg hm, if_neg hm]
      rw [hlen]
      by_cases hm : key lr ∈ r.map key
      · simp [hm]
      · simp [hm]
    rw [hhead]
    by_cases hm : key lr ∈ r.map key
    · simp [hm]
    · simp [hm]

/-- Keys of a fold of inner joins over duplicate-free-key batches: the initial
keys filtered by membership in every folded batch. -/
theorem keyList_foldJoin_of_nodup (dfs : List DF) (init : DF)
    (hd : ∀ d ∈ dfs, (keyList d).Nodup) :
    keyList (dfs.foldl innerJoin init) =
      (keyList init).filter (fun k => decide (∀ d ∈ dfs, k ∈ keyList d)) := by
  induction dfs generalizing init with
  | nil => simp
  | cons d ds ih =>
    rw [List.foldl_cons,
      ih (innerJoin init d) (fun x hx => hd x (List.mem_cons_of_mem _ hx)),
      keyList_innerJoin_of_nodup init d (hd d (List.mem_cons_self _ _)),
      List.filter_filter]
    apply List.filter_congr
    intro k _
    have hiff : ((∀ x ∈ ds, k ∈ keyList x) ∧ k ∈ keyList d) ↔
        (∀ x ∈ d :: ds, k ∈ keyList x) := by
      constructor
      · rintro ⟨h1, h2⟩ x hx
        rcases List.mem_cons.mp hx with rfl | hm
        · exact h2
        · exact h1 x hm
      · intro hall
        exact ⟨fun x hx => hall x (List.mem_cons_of_mem _ hx),
          hall d (List.mem_cons_self _ _)⟩
    rw [← Bool.decide_and]
    exact decide_eq_decide.mpr hiff

/-- C5 (amended): when every input batch has duplicate-free
`(time, city_name)` keys, the merged output's row count is at most every
input batch's row count, and if all batches have the same key sets the output
row count equals every input's row count. -/
theorem merge_rowcount_bound (load : String → DF) (p : String) (ps : List String)
    (out : DF)
    (hout : merge_and_clean_dataframes load (p :: ps) = some out)
    (hnd : ∀ q ∈ p :: ps, (keyList (load q)).Nodup) :
    (∀ q ∈ p :: ps, out.length ≤ (load q).length) ∧
    ((∀ q ∈ p :: ps, ∀ k, k ∈ keyList (load q) ↔ k ∈ keyList (load p)) →
      ∀ q ∈ p :: ps, out.length = (load q).length) := by
  have hout2 : merge_and_clean_dataframes load (p :: ps) =
      some (castDF ((ps.map load).foldl innerJoin (load p))) := by
    unfold merge_and_clean_dataframes
    rw [List.foldl_map]
  have hout3 : out = castDF ((ps.map load).foldl innerJoin (load p)) :=
    Option.some.inj (hout.symm.trans hout2)
  have hkeys : keyList ((ps.map load).foldl innerJoin (load p)) =
      (keyList (load p)).filter
        (fun k => decide (∀ d ∈ ps.map load, k ∈ keyList d)) := by
    apply keyList_foldJoin_of_nodup
    intro d hd
    obtain ⟨q, hq, rfl⟩ := List.mem_map.mp hd
    exact hnd q (List.mem_cons_of_mem _ hq)
  have hlen : out.length =
      (keyList ((ps.map load).foldl innerJoin (load p))).length := by
    rw [hout3]
    unfold castDF keyList
    rw [List.length_map, List.length_map]
  have hlenq : ∀ q, (keyList (load q)).length = (load q).length := by
    intro q
    unfold keyList
    rw [List.length_map]
  have hndout : (keyList ((ps.map load).foldl innerJoin (load p))).Nodup := by
    rw [hkeys]
    exact List.Nodup.filter _ (hnd p (List.mem_cons_self _ _))
  constructor
  · intro q hq
    rcases List.mem_cons.mp hq with rfl | hq'
    · rw [hlen, hkeys, ← hlenq q]
      exact List.length_filter_le _ _
    · rw [hlen, ← hlenq q]
      apply List.Subperm.length_le
      apply List.Nodup.subperm hndout
      intro k hk
      have hall := ((mem_keyList_foldJoin (ps.map load) (load p)).mp hk).2
      exact hall (load q) (List.mem_map_of_mem load hq')
  · intro hsame q hq
    have hfull : (keyList (load p)).filter
        (fun k => decide (∀ d ∈ ps.map load, k ∈ keyList d)) =
        keyList (load p) := by
      apply List.filter_eq_self.mpr
      intro k hk
      apply decide_eq_true
      intro d hd
      obtain ⟨q', hq', rfl⟩ := List.mem_map.mp hd
      exact (hsame q' (List.mem_cons_of_mem _ hq') k).mpr hk
    have houtp : out.length = (load p).length := by
      rw [hlen, hkeys, hfull, hlenq]
    rcases List.mem_cons.mp hq with rfl | hq'
    · exact houtp
    · have hperm : (keyList (load q)).Perm (keyList (load p)) :=
        (List.perm_ext_iff_of_nodup (hnd q hq) (hnd p (List.mem_cons_self _ _))).mpr
          (hsame q hq)
      rw [houtp, ← hlenq p, ← hlenq q]
      exact (hperm.length_eq).symm

/-- Witness for C5 at a concrete instance: two one-row batches with the same
single key merge into one row, attaining the bound with equality. -/
theorem merge_rowcount_bound_witness :
    wOut.length ≤ (wLoad "weather_data").length ∧
    wOut.length = (wLoad "air_quality_data").length := by
  have h := merge_rowcount_bound wLoad "weather_data" ["air_quality_data"]
    wOut rfl (by decide)
  have hsame : ∀ q ∈ ["weather_data", "air_quality_data"], ∀ k,
      k ∈ keyList (wLoad q) ↔ k ∈ keyList (wLoad "weather_data") := by
    intro q hq k
    rcases List.mem_cons.mp hq with rfl | hq'
    · exact Iff.rfl
    · rcases List.mem_cons.mp hq' with rfl | h0
      · have he : keyList (wLoad "air_quality_data") =
            keyList (wLoad "weather_data") := by decide
        rw [he]
      · cases h0
  exact ⟨h.1 "weather_data" (by decide),
    h.2 hsame "air_quality_data" (by decide)⟩

/-- C5 counterexample: with duplicated keys the inner join multiplies rows
(output 4 > minimum input 2), and with nested distinct key sets the output
meets the minimum (1 = 1) although the key sets are not identical — refuting
both the unconditional bound and the "equality exactly when identical key
sets" clause of the claim as stated. -/
theorem merge_rowcount_counterexample :
    (merge_and_clean_dataframes dupLoad ["x", "y"]).map List.length = some 4 ∧
    (dupLoad "x").length = 2 ∧ (dupLoad "y").length = 2 ∧
    ¬(4 ≤ 2) ∧
    (merge_and_clean_dataframes nestLoad ["x", "y"]).map List.length = some 1 ∧
    (nestLoad "x").length = 1 ∧ (nestLoad "y").length = 2 ∧
    (some (Value.s "t1"), some (Value.s "K")) ∈ keyList (nestLoad "y") ∧
    (some (Value.s "t1"), some (Value.s "K")) ∉ keyList (nestLoad "x") := by
  decide

end SilverLayer

namespace BronzeLayer

/-- C2 (amended): for an hourly object of equal-length parallel arrays, the
bronze table has one row per entry of the `time` array, and each row's columns
are every field of the hourly object — the `time` key included, since polars
has no index and `from_dict` keeps it as an ordinary column — plus exactly one
appended `city_name` column holding the constant city name. -/
theorem bronze_shape (hourly : HourlyObj) (city : String) (tarr : List Value)
    (htime : ("time", tarr) ∈ hourly)
    (heq : ∀ f ∈ hourly, f.2.length = tarr.length)
    (hcity : ∀ f ∈ hourly, f.1 ≠ "city_name") :
    ∃ df, transform_hourly hourly city = some df ∧
      df.length = tarr.length ∧
      ∀ r ∈ df, r.map Prod.fst = hourly.map Prod.fst ++ ["city_name"] ∧
        r.lookup "city_name" = some (Value.s city) := by
  cases hourly with
  | nil => cases htime
  | cons f0 rest =>
    have h0len : f0.2.length = tarr.length := heq f0 (List.mem_cons_self _ _)
    have hall : rest.all (fun f => f.2.length = f0.2.length) = true := by
      rw [List.all_eq_true]
      intro f hf
      apply decide_eq_true
      rw [heq f (List.mem_cons_of_mem _ hf), h0len]
    have hfd : from_dict (f0 :: rest) =
        some ((List.range f0.2.length).map (fun i =>
          (f0 :: rest).map (fun f => (f.1, f.2.getD i Value.null)))) := by
      unfold from_dict
      dsimp only
      rw [if_pos hall]
    have hnames : ∀ r0 ∈ (List.range f0.2.length).map (fun i =>
        (f0 :: rest).map (fun f => (f.1, f.2.getD i Value.null))),
        r0.map Prod.fst = (f0 :: rest).map Prod.fst := by
      intro r0 hr0
      obtain ⟨i, _, rfl⟩ := List.mem_map.mp hr0
      rw [List.map_map]
      rfl
    have hnc : ∀ r0 ∈ (List.range f0.2.length).map (fun i =>
        (f0 :: rest).map (fun f => (f.1, f.2.getD i Value.null))),
        ∀ c ∈ r0, c.1 ≠ "city_name" := by
      intro r0 hr0 c hc
      obtain ⟨i, _, rfl⟩ := List.mem_map.mp hr0
      obtain ⟨f, hf, rfl⟩ := List.mem_map.mp hc
      exact hcity f hf
    refine ⟨with_columns_lit ((List.range f0.2.length).map (fun i =>
      (f0 :: rest).map (fun f => (f.1, f.2.getD i Value.null)))) "city_name"
        (Value.s city), ?_, ?_, ?_⟩
    · unfold transform_hourly
      rw [hfd]
      rfl
    · unfold with_columns_lit
      rw [List.length_map, List.length_map, List.length_range, h0len]
    · intro r hr
      unfold with_columns_lit at hr
      obtain ⟨r0, hr0, rfl⟩ := List.mem_map.mp hr
      have hanyf : ¬(r0.any (fun c => decide (c.1 = "city_name")) = true) := by
        rw [List.any_eq_false.mpr]
        · exact Bool.false_ne_true
        · intro c hc
          simpa using hnc r0 hr0 c hc
      rw [if_neg hanyf]
      constructor
      · rw [List.map_append, hnames r0 hr0]
        rfl
      · rw [List.lookup_append,
          SilverLayer.lookup_eq_none_of_names (hnc r0 hr0)]
        rfl

/-- Witness for C2 at a concrete hourly object: two timestamps and one
indicator field give a two-row table with columns
`time`, `pm2_5`, `city_name`. -/
theorem bronze_shape_witness :
    ∃ df, transform_hourly c2Hourly "Kyiv" = some df ∧
      df.length = 2 ∧
      ∀ r ∈ df, r.map Prod.fst = ["time", "pm2_5", "city_name"] ∧
        r.lookup "city_name" = some (Value.s "Kyiv") := by
  exact bronze_shape c2Hourly "Kyiv"
    [Value.s "2025-01-01T00:00", Value.s "2025-01-01T01:00"]
    (by decide) (by decide) (by decide)

/-- C2 counterexample: the claim as stated — the bronze columns exclude the
`time` key — is false: the bronze table produced from `c2Hourly` keeps `time`
as a regular column (the silver stage later joins on it), so no row has
column list `["pm2_5", "city_name"]`. -/
theorem bronze_time_column_counterexample :
    ¬ ∃ df, transform_hourly c2Hourly "Kyiv" = some df ∧
        df.length = 2 ∧
        ∀ r ∈ df, r.map Prod.fst = ["pm2_5", "city_name"] := by
  rintro ⟨df, hdf, hlen, hcols⟩
  have heval : transform_hourly c2Hourly "Kyiv" =
      some [[("time", Value.s "2025-01-01T00:00"), ("pm2_5", Value.q 1),
             ("city_name", Value.s "Kyiv")],
            [("time", Value.s "2025-01-01T01:00"), ("pm2_5", Value.q 2),
             ("city_name", Value.s "Kyiv")]] := by decide
  rw [heval] at hdf
  have hdf' := Option.some.inj hdf
  rw [← hdf'] at hcols
  have hrow := hcols _ (List.mem_cons_self _ _)
  exact absurd hrow (by decide)

end BronzeLayer

namespace LandingZone

/-- C6: a non-200 upstream status fails the fetch with the upstream-response
error before any write; a 200 status writes the raw body at
`<write_path>/<city>.json`, and the written filesystem holds the body at that
path regardless of any prior content (file-level overwrite). -/
theorem fetch_status_spec (resp : ApiResponse) (writePath cityName : String)
    (fs : FS) :
    (resp.status ≠ 200 →
      get_data_from_api resp writePath cityName fs =
        .error "Incorrect status code") ∧
    (resp.status = 200 →
      get_data_from_api resp writePath cityName fs =
        .ok (writeFile fs (writePath ++ "/" ++ cityName ++ ".json")
          (.jsonDoc resp.body)) ∧
      writeFile fs (writePath ++ "/" ++ cityName ++ ".json")
        (.jsonDoc resp.body) (writePath ++ "/" ++ cityName ++ ".json") =
        some (.jsonDoc resp.body)) := by
  constructor
  · intro h
    unfold get_data_from_api
    rw [if_neg h]
  · intro h
    constructor
    · unfold get_data_from_api
      rw [if_pos h]
    · unfold writeFile
      rw [if_pos rfl]

/-- Witness for C6: a 503 response fails without writing; a 200 response over
a filesystem already holding content at the target path overwrites it. -/
theorem fetch_status_spec_witness :
    get_data_from_api ⟨503, []⟩ "lz" "Kyiv" (fun _ => none) =
      .error "Incorrect status code" ∧
    get_data_from_api ⟨200, c9Doc⟩ "lz" "Kyiv" (fun _ => none) =
      .ok (writeFile (fun _ => none) ("lz" ++ "/" ++ "Kyiv" ++ ".json")
        (.jsonDoc c9Doc)) ∧
    writeFile (fun _ => none) ("lz" ++ "/" ++ "Kyiv" ++ ".json")
      (.jsonDoc c9Doc) ("lz" ++ "/" ++ "Kyiv" ++ ".json") =
      some (.jsonDoc c9Doc) := by
  refine ⟨?_, ?_⟩
  · exact (fetch_status_spec ⟨503, []⟩ "lz" "Kyiv" (fun _ => none)).1 (by decide)
  · exact (fetch_status_spec ⟨200, c9Doc⟩ "lz" "Kyiv" (fun _ => none)).2 rfl

theorem get_ok (resp : ApiResponse) (writePath cityName : String) (fs : FS)
    (hs : resp.status = 200) :
    get_data_from_api resp writePath cityName fs =
      .ok (writeFile fs (writePath ++ "/" ++ cityName ++ ".json")
        (.jsonDoc resp.body)) := by
  unfold get_data_from_api
  rw [if_pos hs]

theorem ftt_eq (resp : ApiResponse) (landingDir bronzeDir cityName : String)
    (fs : FS) (hs : resp.status = 200) :
    fetch_then_transform resp landingDir bronzeDir cityName fs =
      transform_json_data_to_parquet (landingDir ++ "/" ++ cityName ++ ".json")
        bronzeDir cityName
        (writeFile fs (landingDir ++ "/" ++ cityName ++ ".json")
          (.jsonDoc resp.body)) := by
  unfold fetch_then_transform
  rw [get_ok resp landingDir cityName fs hs]

theorem ftt_error (resp : ApiResponse) (landingDir bronzeDir cityName : String)
    (fs : FS) (hs : ¬resp.status = 200) :
    fetch_then_transform resp landingDir bronzeDir cityName fs =
      .error "Incorrect status code" := by
  unfold fetch_then_transform get_data_from_api
  rw [if_neg hs]

theorem tjdtp_ok (inputPath outputDir cityName : String) (fs : FS)
    (d : BronzeLayer.LandingDoc) (t : DF)
    (hread : fs inputPath = some (.jsonDoc d))
    (ht : BronzeLayer.transform_json_data d cityName = some t) :
    transform_json_data_to_parquet inputPath outputDir cityName fs =
      .ok (writeFile fs (outputDir ++ "/" ++ cityName ++ ".parquet")
        (.table t)) := by
  unfold transform_json_data_to_parquet
  simp only [hread, ht]

theorem tjdtp_malformed (inputPath outputDir cityName : String) (fs : FS)
    (d : BronzeLayer.LandingDoc)
    (hread : fs inputPath = some (.jsonDoc d))
    (ht : BronzeLayer.transform_json_data d cityName = none) :
    transform_json_data_to_parquet inputPath outputDir cityName fs =
      .error "malformed landing document" := by
  unfold transform_json_data_to_parquet
  simp only [hread, ht]

/-- C9: fetch-then-transform is idempotent at the file level: a successful
pass from any starting filesystem reaches a state that a second pass with the
same upstream data reproduces exactly — in particular the bronze file is
byte-identical between the two passes. -/
theorem fetch_then_transform_idempotent (resp : ApiResponse)
    (landingDir bronzeDir cityName : String) (fs fs' : FS)
    (h : fetch_then_transform resp landingDir bronzeDir cityName fs = .ok fs') :
    fetch_then_transform resp landingDir bronzeDir cityName fs' = .ok fs' := by
  by_cases hs : resp.status = 200
  · rw [ftt_eq resp landingDir bronzeDir cityName fs hs] at h
    rw [ftt_eq resp landingDir bronzeDir cityName fs' hs]
    have hread1 : (writeFile fs (landingDir ++ "/" ++ cityName ++ ".json")
        (.jsonDoc resp.body)) (landingDir ++ "/" ++ cityName ++ ".json") =
        some (.jsonDoc resp.body) := by
      unfold writeFile
      rw [if_pos rfl]
    have hread2 : (writeFile fs' (landingDir ++ "/" ++ cityName ++ ".json")
        (.jsonDoc resp.body)) (landingDir ++ "/" ++ cityName ++ ".json") =
        some (.jsonDoc resp.body) := by
      unfold writeFile
      rw [if_pos rfl]
    cases ht : BronzeLayer.transform_json_data resp.body cityName with
    | none =>
      rw [tjdtp_malformed _ _ _ _ _ hread1 ht] at h
      exact Except.noConfusion h
    | some t =>
      rw [tjdtp_ok _ _ _ _ _ _ hread1 ht] at h
      rw [tjdtp_ok _ _ _ _ _ _ hread2 ht]
      have hfs' : fs' = writeFile (writeFile fs
          (landingDir ++ "/" ++ cityName ++ ".json") (.jsonDoc resp.body))
          (bronzeDir ++ "/" ++ cityName ++ ".parquet") (.table t) :=
        (Except.ok.inj h).symm
      congr 1
      funext qq
      rw [hfs']
      unfold writeFile
      split_ifs <;> rfl
  · rw [ftt_error resp landingDir bronzeDir cityName fs hs] at h
    exact Except.noConfusion h

/-- Witness for C9: one fetch-then-transform pass over a concrete landing
document reaches `c9Fs`, and a second pass from `c9Fs` reproduces `c9Fs`. -/
theorem fetch_then_transform_idempotent_witness :
    fetch_then_transform ⟨200, c9Doc⟩ "lz" "bz" "Kyiv" c9Fs = .ok c9Fs := by
  apply fetch_then_transform_idempotent ⟨200, c9Doc⟩ "lz" "bz" "Kyiv"
    (fun _ => none) c9Fs
  rfl

end LandingZone

namespace GoldenLayer

theorem asQ_optQVal (x : Option ℚ) : asQ (optQVal x) = x := by
  cases x <;> rfl

theorem meanCol_singleton (r : Row) (col : String) :
    meanCol [r] col = getQ r col := by
  unfold meanCol
  cases hg : getQ r col with
  | none =>
    rw [show ([r] : DF).filterMap (fun r => getQ r col) = [] from by
      rw [List.filterMap_cons, hg]; rfl]
    rfl
  | some x =>
    rw [show ([r] : DF).filterMap (fun r => getQ r col) = [x] from by
      rw [List.filterMap_cons, hg]; rfl]
    rw [if_neg (show ¬([x].length = 0) by simp)]
    rw [show ([x].sum : ℚ) = x from by rw [List.sum_cons, List.sum_nil, add_zero]]
    rw [show (([x].length : ℕ) : ℚ) = 1 from by rw [List.length_singleton]; rfl]
    rw [div_one]

theorem qLe_total (x y : Option ℚ) : qLe x y = true ∨ qLe y x = true := by
  match x, y with
  | none, _ => exact Or.inl rfl
  | some a, none => exact Or.inr rfl
  | some a, some b =>
    rcases le_total a b with h | h
    · exact Or.inl (by unfold qLe; exact decide_eq_true h)
    · exact Or.inr (by unfold qLe; exact decide_eq_true h)

theorem qLe_trans {x y z : Option ℚ} (h1 : qLe x y = true) (h2 : qLe y z = true) :
    qLe x z = true := by
  match x, y, z with
  | none, _, _ => rfl
  | some a, none, _ => exact absurd h1 (by unfold qLe; exact Bool.false_ne_true)
  | some a, some b, none => exact absurd h2 (by unfold qLe; exact Bool.false_ne_true)
  | some a, some b, some c =>
    unfold qLe at h1 h2 ⊢
    exact decide_eq_true (le_trans (of_decide_eq_true h1) (of_decide_eq_true h2))

theorem sortByCol_perm (col : String) (df : DF) : (sortByCol col df).Perm df :=
  List.perm_insertionSort _ _

theorem sortByCol_sorted (col : String) (df : DF) :
    List.Pairwise (fun a b => rowLeBy col a b = true) (sortByCol col df) := by
  letI : IsTotal Row (fun a b => rowLeBy col a b = true) :=
    ⟨fun a b => qLe_total _ _⟩
  letI : IsTrans Row (fun a b => rowLeBy col a b = true) :=
    ⟨fun _ _ _ h1 h2 => qLe_trans h1 h2⟩
  exact List.sorted_insertionSort _ df

theorem windRow_shape {df : DF} {r : Row} (hr : r ∈ analyze_wind_effect df) :
    r.map Prod.fst = ["wind_category", "avg_pm2_5", "avg_pm10", "avg_ozone",
      "avg_wind_speed", "count"] := by
  have hmem : r ∈ ((df.map windCategory).dedup).map (windAggRow df) :=
    (sortByCol_perm _ _).mem_iff.mp hr
  obtain ⟨c, _, rfl⟩ := List.mem_map.mp hmem
  rfl

/-- C8: the wind-effect table has exactly one row per wind band present in
the input (in the sense of a permutation of the distinct band labels), each
row carrying the band, the four means and the row count, sorted ascending by
mean wind speed; on the spec's scenario — wind speeds 2, 5, 9, 15 — all four
bands appear with count 1 each, in Light, Gentle, Moderate, Strong order. -/
theorem wind_effect_buckets :
    (∀ df : DF,
      (analyze_wind_effect df).length = ((df.map windCategory).dedup).length ∧
      ((analyze_wind_effect df).map (fun r => r.lookup "wind_category")).Perm
        (((df.map windCategory).dedup).map (fun c => some (Value.s c))) ∧
      (∀ r ∈ analyze_wind_effect df, r.map Prod.fst =
        ["wind_category", "avg_pm2_5", "avg_pm10", "avg_ozone",
         "avg_wind_speed", "count"]) ∧
      List.Pairwise (fun a b => rowLeBy "avg_wind_speed" a b = true)
        (analyze_wind_effect df)) ∧
    analyze_wind_effect windScenario = windScenarioTable := by
  constructor
  · intro df
    have hperm : (analyze_wind_effect df).Perm
        (((df.map windCategory).dedup).map (windAggRow df)) :=
      sortByCol_perm _ _
    refine ⟨?_, ?_, fun r hr => windRow_shape hr, sortByCol_sorted _ _⟩
    · rw [hperm.length_eq, List.length_map]
    · have h1 := hperm.map (fun r => r.lookup "wind_category")
      rw [List.map_map] at h1
      have h2 : ((df.map windCategory).dedup).map
          ((fun r => r.lookup "wind_category") ∘ windAggRow df) =
          ((df.map windCategory).dedup).map (fun c => some (Value.s c)) :=
        List.map_congr_left fun c _ => rfl
      rw [h2] at h1
      exact h1
  · have hL : windAggRow windScenario "Light (0-3 km/h)" =
        [("wind_category", Value.s "Light (0-3 km/h)"), ("avg_pm2_5", Value.q 8),
         ("avg_pm10", Value.q 16), ("avg_ozone", Value.q 30),
         ("avg_wind_speed", Value.q 2), ("count", Value.q 1)] := by
      unfold windAggRow
      rw [show windScenario.filter
          (fun r => decide (windCategory r = "Light (0-3 km/h)")) =
          [[("wind_speed_10m", Value.q 2), ("pm2_5", Value.q 8),
            ("pm10", Value.q 16), ("ozone", Value.q 30)]] from by decide]
      rw [meanCol_singleton, meanCol_singleton, meanCol_singleton,
        meanCol_singleton]
      decide
    have hG : windAggRow windScenario "Gentle (3-7 km/h)" =
        [("wind_category", Value.s "Gentle (3-7 km/h)"), ("avg_pm2_5", Value.q 6),
         ("avg_pm10", Value.q 12), ("avg_ozone", Value.q 28),
         ("avg_wind_speed", Value.q 5), ("count", Value.q 1)] := by
      unfold windAggRow
      rw [show windScenario.filter
          (fun r => decide (windCategory r = "Gentle (3-7 km/h)")) =
          [[("wind_speed_10m", Value.q 5), ("pm2_5", Value.q 6),
            ("pm10", Value.q 12), ("ozone", Value.q 28)]] from by decide]
      rw [meanCol_singleton, meanCol_singleton, meanCol_singleton,
        meanCol_singleton]
      decide
    have hM : windAggRow windScenario "Moderate (7-12 km/h)" =
        [("wind_category", Value.s "Moderate (7-12 km/h)"),
         ("avg_pm2_5", Value.q 4), ("avg_pm10", Value.q 8),
         ("avg_ozone", Value.q 26), ("avg_wind_speed", Value.q 9),
         ("count", Value.q 1)] := by
      unfold windAggRow
      rw [show windScenario.filter
          (fun r => decide (windCategory r = "Moderate (7-12 km/h)")) =
          [[("wind_speed_10m", Value.q 9), ("pm2_5", Value.q 4),
            ("pm10", Value.q 8), ("ozone", Value.q 26)]] from by decide]
      rw [meanCol_singleton, meanCol_singleton, meanCol_singleton,
        meanCol_singleton]
      decide
    have hS : windAggRow windScenario "Strong (>12 km/h)" =
        [("wind_category", Value.s "Strong (>12 km/h)"),
         ("avg_pm2_5", Value.q 2), ("avg_pm10", Value.q 4),
         ("avg_ozone", Value.q 24), ("avg_wind_speed", Value.q 15),
         ("count", Value.q 1)] := by
      unfold windAggRow
      rw [show windScenario.filter
          (fun r => decide (windCategory r = "Strong (>12 km/h)")) =
          [[("wind_speed_10m", Value.q 15), ("pm2_5", Value.q 2),
            ("pm10", Value.q 4), ("ozone", Value.q 24)]] from by decide]
      rw [meanCol_singleton, meanCol_singleton, meanCol_singleton,
        meanCol_singleton]
      decide
    unfold analyze_wind_effect
    rw [show (windScenario.map windCategory).dedup =
        ["Light (0-3 km/h)", "Gentle (3-7 km/h)", "Moderate (7-12 km/h)",
         "Strong (>12 km/h)"] from by decide]
    rw [List.map_cons, List.map_cons, List.map_cons, List.map_cons,
      List.map_nil, hL, hG, hM, hS]
    decide

theorem seriesMax_fold_le (l : List ℚ) :
    ∀ (acc : Option ℚ) (m : ℚ),
      l.foldl (fun acc x =>
        match acc with
        | none => some x
        | some c => some (max c x)) acc = some m →
      (∀ x, acc = some x → x ≤ m) ∧ (∀ x ∈ l, x ≤ m) := by
  induction l with
  | nil =>
    intro acc m h
    rw [List.foldl_nil] at h
    refine ⟨fun x hx => ?_, fun x hx => absurd hx (List.not_mem_nil x)⟩
    rw [hx] at h
    exact le_of_eq (Option.some.inj h)
  | cons a l ih =>
    intro acc m h
    rw [List.foldl_cons] at h
    obtain ⟨h1, h2⟩ := ih _ m h
    constructor
    · intro x hx
      have hstep : max x a ≤ m := h1 (max x a) (by rw [hx])
      exact le_trans (le_max_left x a) hstep
    · intro y hy
      rcases List.mem_cons.mp hy with rfl | hmem
      · cases hacc : acc with
        | none => exact h1 y (by rw [hacc])
        | some c =>
          have hstep : max c y ≤ m := h1 (max c y) (by rw [hacc])
          exact le_trans (le_max_right c y) hstep
      · exact h2 y hmem

theorem seriesMax_le {l : List ℚ} {m : ℚ} (hm : seriesMax l = some m) :
    ∀ x ∈ l, x ≤ m :=
  (seriesMax_fold_le l none m hm).2

theorem seriesMin_fold_ge (l : List ℚ) :
    ∀ (acc : Option ℚ) (m : ℚ),
      l.foldl (fun acc x =>
        match acc with
        | none => some x
        | some c => some (min c x)) acc = some m →
      (∀ x, acc = some x → m ≤ x) ∧ (∀ x ∈ l, m ≤ x) := by
  induction l with
  | nil =>
    intro acc m h
    rw [List.foldl_nil] at h
    refine ⟨fun x hx => ?_, fun x hx => absurd hx (List.not_mem_nil x)⟩
    rw [hx] at h
    exact le_of_eq (Option.some.inj h).symm
  | cons a l ih =>
    intro acc m h
    rw [List.foldl_cons] at h
    obtain ⟨h1, h2⟩ := ih _ m h
    constructor
    · intro x hx
      have hstep : m ≤ min x a := h1 (min x a) (by rw [hx])
      exact le_trans hstep (min_le_left x a)
    · intro y hy
      rcases List.mem_cons.mp hy with rfl | hmem
      · cases hacc : acc with
        | none => exact h1 y (by rw [hacc])
        | some c =>
          have hstep : m ≤ min c y := h1 (min c y) (by rw [hacc])
          exact le_trans hstep (min_le_right c y)
      · exact h2 y hmem

theorem seriesMin_ge {l : List ℚ} {m : ℚ} (hm : seriesMin l = some m) :
    ∀ x ∈ l, m ≤ x :=
  (seriesMin_fold_ge l none m hm).2

theorem lookup_hourAggRow_hour (pairs : List (Row × Nat)) (h : Nat) :
    (hourAggRow pairs h).lookup "hour" = some (Value.q (h : ℚ)) := rfl

theorem getQ_hourAggRow_avg (pairs : List (Row × Nat)) (h : Nat) :
    getQ (hourAggRow pairs h) "avg_pm2_5" = hourMean pairs h := by
  show asQ (optQVal (hourMean pairs h)) = hourMean pairs h
  exact asQ_optQVal _

theorem mem_hourlyStats (pairs : List (Row × Nat)) (h : Nat)
    (hmem : h ∈ pairs.map Prod.snd) :
    hourAggRow pairs h ∈ hourlyStats pairs := by
  unfold hourlyStats
  apply List.mem_map_of_mem
  apply (List.perm_insertionSort _ _).mem_iff.mpr
  exact List.mem_dedup.mpr hmem

/-- Successful hourly analysis returns exactly the hourly stats table. -/
theorem analyze_hourly_success (df stats : DF) (vmax vmin : Value)
    (h : analyze_hourly_patterns df = some (stats, vmax, vmin)) :
    ∃ pairs, hourlyRows df = some pairs ∧ stats = hourlyStats pairs ∧
      hourItem (hourlyStats pairs) (seriesMax
        ((hourlyStats pairs).filterMap (fun r => getQ r "avg_pm2_5"))) =
        some vmax ∧
      hourItem (hourlyStats pairs) (seriesMin
        ((hourlyStats pairs).filterMap (fun r => getQ r "avg_pm2_5"))) =
        some vmin := by
  unfold analyze_hourly_patterns at h
  cases hpr : hourlyRows df with
  | none => rw [hpr] at h; exact Option.noConfusion h
  | some pairs =>
    rw [hpr] at h
    have h2 : (match
        hourItem (hourlyStats pairs) (seriesMax
          ((hourlyStats pairs).filterMap (fun r => getQ r "avg_pm2_5"))),
        hourItem (hourlyStats pairs) (seriesMin
          ((hourlyStats pairs).filterMap (fun r => getQ r "avg_pm2_5"))) with
      | some a, some b => some (hourlyStats pairs, a, b)
      | _, _ => none) = some (stats, vmax, vmin) := h
    refine ⟨pairs, rfl, ?_⟩
    cases hmx : hourItem (hourlyStats pairs) (seriesMax
        ((hourlyStats pairs).filterMap (fun r => getQ r "avg_pm2_5"))) with
    | none => rw [hmx] at h2; exact Option.noConfusion h2
    | some a =>
      cases hmn : hourItem (hourlyStats pairs) (seriesMin
          ((hourlyStats pairs).filterMap (fun r => getQ r "avg_pm2_5"))) with
      | none => rw [hmx, hmn] at h2; exact Option.noConfusion h2
      | some b =>
        rw [hmx, hmn] at h2
        have h3 := Option.some.inj h2
        have hst : hourlyStats pairs = stats := congrArg Prod.fst h3
        have ha : a = vmax := congrArg (fun p => p.2.1) h3
        have hb : b = vmin := congrArg (fun p => p.2.2) h3
        refine ⟨hst.symm, ?_, ?_⟩
        · rw [ha]
        · rw [hb]

/-- A successful `.item()` on the max filter returns an hour of the input
whose group mean attains the maximum over all hour-group means. -/
theorem hourItem_max_spec (pairs : List (Row × Nat)) (v : Value)
    (h : hourItem (hourlyStats pairs) (seriesMax
      ((hourlyStats pairs).filterMap (fun r => getQ r "avg_pm2_5"))) = some v) :
    ∃ (hM : ℕ) (qM : ℚ), v = Value.q (hM : ℚ) ∧ hM ∈ pairs.map Prod.snd ∧
      hourMean pairs hM = some qM ∧
      ∀ h' ∈ pairs.map Prod.snd, ∀ q', hourMean pairs h' = some q' → q' ≤ qM := by
  unfold hourItem at h
  cases hsm : seriesMax ((hourlyStats pairs).filterMap
      (fun r => getQ r "avg_pm2_5")) with
  | none => rw [hsm] at h; exact Option.noConfusion h
  | some m =>
    rw [hsm] at h
    have h2 : (match (hourlyStats pairs).filter
        (fun r => decide (getQ r "avg_pm2_5" = some m)) with
      | [r] => r.lookup "hour"
      | _ => none) = some v := h
    cases hfil : (hourlyStats pairs).filter
        (fun r => decide (getQ r "avg_pm2_5" = some m)) with
    | nil => rw [hfil] at h2; exact Option.noConfusion h2
    | cons r tail =>
      cases tail with
      | cons r2 t2 => rw [hfil] at h2; exact Option.noConfusion h2
      | nil =>
        rw [hfil] at h2
        have hrmem : r ∈ (hourlyStats pairs).filter
            (fun r => decide (getQ r "avg_pm2_5" = some m)) := by
          rw [hfil]
          exact List.mem_cons_self _ _
        obtain ⟨hrstats, hrpred⟩ := List.mem_filter.mp hrmem
        have hravg : getQ r "avg_pm2_5" = some m := of_decide_eq_true hrpred
        unfold hourlyStats at hrstats
        obtain ⟨hM, hMmem, rfl⟩ := List.mem_map.mp hrstats
        have hMmem2 : hM ∈ pairs.map Prod.snd :=
          List.mem_dedup.mp
            ((List.perm_insertionSort (fun a b => a ≤ b)
              ((pairs.map Prod.snd).dedup)).mem_iff.mp hMmem)
        refine ⟨hM, m, ?_, hMmem2, ?_, ?_⟩
        · have h4 : (hourAggRow pairs hM).lookup "hour" = some v := h2
          rw [lookup_hourAggRow_hour] at h4
          exact (Option.some.inj h4).symm
        · rw [← getQ_hourAggRow_avg]
          exact hravg
        · intro h' hmem' q' hq'
          apply seriesMax_le hsm
          apply List.mem_filterMap.mpr
          refine ⟨hourAggRow pairs h', mem_hourlyStats pairs h' hmem', ?_⟩
          rw [getQ_hourAggRow_avg]
          exact hq'

/-- A successful `.item()` on the min filter returns an hour of the input
whose group mean attains the minimum over all hour-group means. -/
theorem hourItem_min_spec (pairs : List (Row × Nat)) (v : Value)
    (h : hourItem (hourlyStats pairs) (seriesMin
      ((hourlyStats pairs).filterMap (fun r => getQ r "avg_pm2_5"))) = some v) :
    ∃ (hm : ℕ) (qm : ℚ), v = Value.q (hm : ℚ) ∧ hm ∈ pairs.map Prod.snd ∧
      hourMean pairs hm = some qm ∧
      ∀ h' ∈ pairs.map Prod.snd, ∀ q', hourMean pairs h' = some q' → qm ≤ q' := by
  unfold hourItem at h
  cases hsm : seriesMin ((hourlyStats pairs).filterMap
      (fun r => getQ r "avg_pm2_5")) with
  | none => rw [hsm] at h; exact Option.noConfusion h
  | some m =>
    rw [hsm] at h
    have h2 : (match (hourlyStats pairs).filter
        (fun r => decide (getQ r "avg_pm2_5" = some m)) with
      | [r] => r.lookup "hour"
      | _ => none) = some v := h
    cases hfil : (hourlyStats pairs).filter
        (fun r => decide (getQ r "avg_pm2_5" = some m)) with
    | nil => rw [hfil] at h2; exact Option.noConfusion h2
    | cons r tail =>
      cases tail with
      | cons r2 t2 => rw [hfil] at h2; exact Option.noConfusion h2
      | nil =>
        rw [hfil] at h2
        have hrmem : r ∈ (hourlyStats pairs).filter
            (fun r => decide (getQ r "avg_pm2_5" = some m)) := by
          rw [hfil]
          exact List.mem_cons_self _ _
        obtain ⟨hrstats, hrpred⟩ := List.mem_filter.mp hrmem
        have hravg : getQ r "avg_pm2_5" = some m := of_decide_eq_true hrpred
        unfold hourlyStats at hrstats
        obtain ⟨hm, hmmem, rfl⟩ := List.mem_map.mp hrstats
        have hmmem2 : hm ∈ pairs.map Prod.snd :=
          List.mem_dedup.mp
            ((List.perm_insertionSort (fun a b => a ≤ b)
              ((pairs.map Prod.snd).dedup)).mem_iff.mp hmmem)
        refine ⟨hm, m, ?_, hmmem2, ?_, ?_⟩
        · have h4 : (hourAggRow pairs hm).lookup "hour" = some v := h2
          rw [lookup_hourAggRow_hour] at h4
          exact (Option.some.inj h4).symm
        · rw [← getQ_hourAggRow_avg]
          exact hravg
        · intro h' hmem' q' hq'
          apply seriesMin_ge hsm
          apply List.mem_filterMap.mpr
          refine ⟨hourAggRow pairs h', mem_hourlyStats pairs h' hmem', ?_⟩
          rw [getQ_hourAggRow_avg]
          exact hq'

/-- C4 (amended): when the hourly analysis succeeds it returns the hourly
stats table and reports an hour attaining the maximal mean PM2.5 and an hour
attaining the minimal mean PM2.5; when several hours tie for the maximum or
minimum the `.item()` call raises — the analysis fails rather than returning
a first row (see the counterexample). -/
theorem hourly_peak_spec (df stats : DF) (hmax hmin : Value)
    (h : analyze_hourly_patterns df = some (stats, hmax, hmin)) :
    ∃ pairs, hourlyRows df = some pairs ∧ stats = hourlyStats pairs ∧
      (∃ (hM : ℕ) (qM : ℚ), hmax = Value.q (hM : ℚ) ∧
        hM ∈ pairs.map Prod.snd ∧ hourMean pairs hM = some qM ∧
        ∀ h' ∈ pairs.map Prod.snd, ∀ q', hourMean pairs h' = some q' →
          q' ≤ qM) ∧
      (∃ (hm : ℕ) (qm : ℚ), hmin = Value.q (hm : ℚ) ∧
        hm ∈ pairs.map Prod.snd ∧ hourMean pairs hm = some qm ∧
        ∀ h' ∈ pairs.map Prod.snd, ∀ q', hourMean pairs h' = some q' →
          qm ≤ q') := by
  obtain ⟨pairs, hpr, hstats, hmx, hmn⟩ :=
    analyze_hourly_success df stats hmax hmin h
  exact ⟨pairs, hpr, hstats, hourItem_max_spec pairs hmax hmx,
    hourItem_min_spec pairs hmin hmn⟩

theorem hourlyStats_tie :
    hourlyStats tiePairs =
      [[("hour", Value.q 0), ("avg_pm2_5", Value.q 5),
        ("avg_temperature_2m", Value.null), ("avg_wind_speed_10m", Value.null),
        ("avg_relative_humidity_2m", Value.null), ("count", Value.q 1)],
       [("hour", Value.q 1), ("avg_pm2_5", Value.q 5),
        ("avg_temperature_2m", Value.null), ("avg_wind_speed_10m", Value.null),
        ("avg_relative_humidity_2m", Value.null), ("count", Value.q 1)]] := by
  have hrow0 : hourAggRow tiePairs 0 =
      [("hour", Value.q 0), ("avg_pm2_5", Value.q 5),
       ("avg_temperature_2m", Value.null), ("avg_wind_speed_10m", Value.null),
       ("avg_relative_humidity_2m", Value.null), ("count", Value.q 1)] := by
    unfold hourAggRow hourMean
    rw [show (tiePairs.filter (fun pr => decide (pr.2 = 0))).map Prod.fst =
      [[("time", Value.dt "2025-01-01T00:00"), ("pm2_5", Value.q 5)]] from
      by decide]
    rw [meanCol_singleton, meanCol_singleton, meanCol_singleton,
      meanCol_singleton]
    decide
  have hrow1 : hourAggRow tiePairs 1 =
      [("hour", Value.q 1), ("avg_pm2_5", Value.q 5),
       ("avg_temperature_2m", Value.null), ("avg_wind_speed_10m", Value.null),
       ("avg_relative_humidity_2m", Value.null), ("count", Value.q 1)] := by
    unfold hourAggRow hourMean
    rw [show (tiePairs.filter (fun pr => decide (pr.2 = 1))).map Prod.fst =
      [[("time", Value.dt "2025-01-01T01:00"), ("pm2_5", Value.q 5)]] from
      by decide]
    rw [meanCol_singleton, meanCol_singleton, meanCol_singleton,
      meanCol_singleton]
    decide
  unfold hourlyStats
  rw [show List.insertionSort (fun a b => a ≤ b)
    ((tiePairs.map Prod.snd).dedup) = [0, 1] from by decide]
  rw [List.map_cons, List.map_cons, List.map_nil, hrow0, hrow1]

/-- C4 counterexample: on a batch whose two hours share the same mean PM2.5
level — so both tie for the maximum and the minimum — the hourly analysis
raises (the `.item()` selection holds two rows) instead of returning
whichever row comes first, refuting the claim's tie clause. -/
theorem hourly_tie_counterexample :
    analyze_hourly_patterns tieDf = none ∧
    hourlyRows tieDf = some tiePairs ∧
    hourMean tiePairs 0 = some 5 ∧ hourMean tiePairs 1 = some 5 := by
  have hpairsT : hourlyRows tieDf = some tiePairs := by decide
  have hm0 : hourMean tiePairs 0 = some 5 := by
    unfold hourMean
    rw [show (tiePairs.filter (fun pr => decide (pr.2 = 0))).map Prod.fst =
      [[("time", Value.dt "2025-01-01T00:00"), ("pm2_5", Value.q 5)]] from
      by decide]
    rw [meanCol_singleton]
    decide
  have hm1 : hourMean tiePairs 1 = some 5 := by
    unfold hourMean
    rw [show (tiePairs.filter (fun pr => decide (pr.2 = 1))).map Prod.fst =
      [[("time", Value.dt "2025-01-01T01:00"), ("pm2_5", Value.q 5)]] from
      by decide]
    rw [meanCol_singleton]
    decide
  refine ⟨?_, hpairsT, hm0, hm1⟩
  have hred : analyze_hourly_patterns tieDf = (match
      hourItem (hourlyStats tiePairs) (seriesMax
        ((hourlyStats tiePairs).filterMap (fun r => getQ r "avg_pm2_5"))),
      hourItem (hourlyStats tiePairs) (seriesMin
        ((hourlyStats tiePairs).filterMap (fun r => getQ r "avg_pm2_5"))) with
    | some a, some b => some (hourlyStats tiePairs, a, b)
    | _, _ => none) := by
    unfold analyze_hourly_patterns
    rw [hpairsT]
  rw [hred]
  have hnone : hourItem (hourlyStats tiePairs) (seriesMax
      ((hourlyStats tiePairs).filterMap (fun r => getQ r "avg_pm2_5"))) =
      none := by
    rw [hourlyStats_tie]
    decide
  rw [hnone]

theorem hourlyStats_peak :
    hourlyStats peakPairs =
      [[("hour", Value.q 0), ("avg_pm2_5", Value.q 1),
        ("avg_temperature_2m", Value.null), ("avg_wind_speed_10m", Value.null),
        ("avg_relative_humidity_2m", Value.null), ("count", Value.q 1)],
       [("hour", Value.q 1), ("avg_pm2_5", Value.q 2),
        ("avg_temperature_2m", Value.null), ("avg_wind_speed_10m", Value.null),
        ("avg_relative_humidity_2m", Value.null), ("count", Value.q 1)]] := by
  have hrow0 : hourAggRow peakPairs 0 =
      [("hour", Value.q 0), ("avg_pm2_5", Value.q 1),
       ("avg_temperature_2m", Value.null), ("avg_wind_speed_10m", Value.null),
       ("avg_relative_humidity_2m", Value.null), ("count", Value.q 1)] := by
    unfold hourAggRow hourMean
    rw [show (peakPairs.filter (fun pr => decide (pr.2 = 0))).map Prod.fst =
      [[("time", Value.dt "2025-01-01T00:00"), ("pm2_5", Value.q 1)]] from
      by decide]
    rw [meanCol_singleton, meanCol_singleton, meanCol_singleton,
      meanCol_singleton]
    decide
  have hrow1 : hourAggRow peakPairs 1 =
      [("hour", Value.q 1), ("avg_pm2_5", Value.q 2),
       ("avg_temperature_2m", Value.null), ("avg_wind_speed_10m", Value.null),
       ("avg_relative_humidity_2m", Value.null), ("count", Value.q 1)] := by
    unfold hourAggRow hourMean
    rw [show (peakPairs.filter (fun pr => decide (pr.2 = 1))).map Prod.fst =
      [[("time", Value.dt "2025-01-01T01:00"), ("pm2_5", Value.q 2)]] from
      by decide]
    rw [meanCol_singleton, meanCol_singleton, meanCol_singleton,
      meanCol_singleton]
    decide
  unfold hourlyStats
  rw [show List.insertionSort (fun a b => a ≤ b)
    ((peakPairs.map Prod.snd).dedup) = [0, 1] from by decide]
  rw [List.map_cons, List.map_cons, List.map_nil, hrow0, hrow1]

theorem analyze_hourly_peak_eval :
    analyze_hourly_patterns peakDf =
      some (hourlyStats peakPairs, Value.q 1, Value.q 0) := by
  have hpairsP : hourlyRows peakDf = some peakPairs := by decide
  have hred : analyze_hourly_patterns peakDf = (match
      hourItem (hourlyStats peakPairs) (seriesMax
        ((hourlyStats peakPairs).filterMap (fun r => getQ r "avg_pm2_5"))),
      hourItem (hourlyStats peakPairs) (seriesMin
        ((hourlyStats peakPairs).filterMap (fun r => getQ r "avg_pm2_5"))) with
    | some a, some b => some (hourlyStats peakPairs, a, b)
    | _, _ => none) := by
    unfold analyze_hourly_patterns
    rw [hpairsP]
  rw [hred, hourlyStats_peak]
  decide

/-- Witness for C4 at a concrete no-tie batch: hour 1 (mean 2) is reported as
the peak and hour 0 (mean 1) as the lowest. -/
theorem hourly_peak_spec_witness :
    ∃ pairs, hourlyRows peakDf = some pairs ∧
      hourlyStats peakPairs = hourlyStats pairs ∧
      (∃ (hM : ℕ) (qM : ℚ), Value.q 1 = Value.q (hM : ℚ) ∧
        hM ∈ pairs.map Prod.snd ∧ hourMean pairs hM = some qM ∧
        ∀ h' ∈ pairs.map Prod.snd, ∀ q', hourMean pairs h' = some q' →
          q' ≤ qM) ∧
      (∃ (hm : ℕ) (qm : ℚ), Value.q 0 = Value.q (hm : ℚ) ∧
        hm ∈ pairs.map Prod.snd ∧ hourMean pairs hm = some qm ∧
        ∀ h' ∈ pairs.map Prod.snd, ∀ q', hourMean pairs h' = some q' →
          qm ≤ q') :=
  hourly_peak_spec peakDf (hourlyStats peakPairs) (Value.q 1) (Value.q 0)
    analyze_hourly_peak_eval

theorem precipRow_shape {df : DF} {r : Row}
    (hr : r ∈ analyze_precipitation_effect df) :
    r.map Prod.fst = ["has_precipitation", "avg_pm2_5", "avg_pm10",
      "avg_ozone", "avg_carbon_monoxide", "count"] := by
  unfold analyze_precipitation_effect at hr
  obtain ⟨v, _, rfl⟩ := List.mem_map.mp hr
  rfl

theorem tempRow_shape {df : DF} {r : Row}
    (hr : r ∈ analyze_temperature_humidity_relationship df) :
    r.map Prod.fst = ["temp_category", "avg_pm2_5", "avg_ozone",
      "avg_temperature", "count"] := by
  have hmem : r ∈ ((df.map tempCategory).dedup).map (tempAggRow df) :=
    (sortByCol_perm _ _).mem_iff.mp hr
  obtain ⟨c, _, rfl⟩ := List.mem_map.mp hmem
  rfl

theorem hourlyStats_row_shape (pairs : List (Row × Nat)) :
    ∀ r ∈ hourlyStats pairs, r.map Prod.fst =
      ["hour", "avg_pm2_5", "avg_temperature_2m", "avg_wind_speed_10m",
       "avg_relative_humidity_2m", "count"] := by
  intro r hr
  unfold hourlyStats at hr
  obtain ⟨h, _, rfl⟩ := List.mem_map.mp hr
  rfl

/-- C10: the analytics stage writes exactly four CSVs — the precipitation,
wind, hourly-pattern and temperature tables — and each written table's rows
hold exactly the group-by dimension, the mean-aggregate columns and the row
count; the logged derived figures (correlations, PM2.5 improvement
percentage, peak/lowest hours) appear in none of them. -/
theorem analytics_csv_columns (df : DF) (files : List (String × DF))
    (h : calculate_analytics df = some files) :
    files.map Prod.fst =
      ["precipitation.csv", "wind.csv", "hourly_patterns.csv",
       "humidity_df.csv"] ∧
    (∃ stats hmax hmin, analyze_hourly_patterns df = some (stats, hmax, hmin) ∧
      files = [("precipitation.csv", analyze_precipitation_effect df),
               ("wind.csv", analyze_wind_effect df),
               ("hourly_patterns.csv", stats),
               ("humidity_df.csv",
                 analyze_temperature_humidity_relationship df)]) ∧
    (∀ r ∈ analyze_precipitation_effect df, r.map Prod.fst =
      ["has_precipitation", "avg_pm2_5", "avg_pm10", "avg_ozone",
       "avg_carbon_monoxide", "count"]) ∧
    (∀ r ∈ analyze_wind_effect df, r.map Prod.fst =
      ["wind_category", "avg_pm2_5", "avg_pm10", "avg_ozone",
       "avg_wind_speed", "count"]) ∧
    (∀ stats hmax hmin, analyze_hourly_patterns df = some (stats, hmax, hmin) →
      ∀ r ∈ stats, r.map Prod.fst =
        ["hour", "avg_pm2_5", "avg_temperature_2m", "avg_wind_speed_10m",
         "avg_relative_humidity_2m", "count"]) ∧
    (∀ r ∈ analyze_temperature_humidity_relationship df, r.map Prod.fst =
      ["temp_category", "avg_pm2_5", "avg_ozone", "avg_temperature",
       "count"]) := by
  unfold calculate_analytics at h
  cases hhp : analyze_hourly_patterns df with
  | none => rw [hhp] at h; exact Option.noConfusion h
  | some trip =>
    obtain ⟨stats0, vmax, vmin⟩ := trip
    rw [hhp] at h
    have h2 : some [("precipitation.csv", analyze_precipitation_effect df),
        ("wind.csv", analyze_wind_effect df),
        ("hourly_patterns.csv", stats0),
        ("humidity_df.csv", analyze_temperature_humidity_relationship df)] =
        some files := h
    have hfiles : files = [("precipitation.csv",
        analyze_precipitation_effect df),
        ("wind.csv", analyze_wind_effect df),
        ("hourly_patterns.csv", stats0),
        ("humidity_df.csv", analyze_temperature_humidity_relationship df)] :=
      (Option.some.inj h2).symm
    refine ⟨?_, ?_, ?_, ?_, ?_, ?_⟩
    · rw [hfiles]
      rfl
    · exact ⟨stats0, vmax, vmin, rfl, hfiles⟩
    · exact fun r hr => precipRow_shape hr
    · exact fun r hr => windRow_shape hr
    · intro stats1 a b hh r hr
      obtain ⟨pairs, _, hst, _, _⟩ :=
        analyze_hourly_success df stats1 a b (hhp.trans hh)
      rw [hst] at hr
      exact hourlyStats_row_shape pairs r hr
    · exact fun r hr => tempRow_shape hr

theorem precip_golden_eval :
    analyze_precipitation_effect goldenDf =
      [[("has_precipitation", Value.b false), ("avg_pm2_5", Value.q 3),
        ("avg_pm10", Value.q 4), ("avg_ozone", Value.q 5),
        ("avg_carbon_monoxide", Value.q 6), ("count", Value.q 1)]] := by
  unfold analyze_precipitation_effect
  rw [show List.insertionSort (fun a b => flagRank a ≤ flagRank b)
    ((goldenDf.map precipFlag).dedup) = [Value.b false] from by decide]
  rw [List.map_cons, List.map_nil]
  unfold precipAggRow
  rw [show goldenDf.filter (fun r => decide (precipFlag r = Value.b false)) =
    [[("time", Value.dt "2025-01-01T05:00"), ("pm2_5", Value.q 3),
      ("pm10", Value.q 4), ("ozone", Value.q 5), ("carbon_monoxide", Value.q 6),
      ("precipitation", Value.q 0), ("wind_speed_10m", Value.q 2),
      ("temperature_2m", Value.q 15), ("relative_humidity_2m", Value.q 50)]]
    from by decide]
  rw [meanCol_singleton, meanCol_singleton, meanCol_singleton,
    meanCol_singleton]
  decide

theorem wind_golden_eval :
    analyze_wind_effect goldenDf =
      [[("wind_category", Value.s "Light (0-3 km/h)"), ("avg_pm2_5", Value.q 3),
        ("avg_pm10", Value.q 4), ("avg_ozone", Value.q 5),
        ("avg_wind_speed", Value.q 2), ("count", Value.q 1)]] := by
  unfold analyze_wind_effect
  rw [show (goldenDf.map windCategory).dedup = ["Light (0-3 km/h)"] from
    by decide]
  rw [List.map_cons, List.map_nil]
  rw [show windAggRow goldenDf "Light (0-3 km/h)" =
      [("wind_category", Value.s "Light (0-3 km/h)"), ("avg_pm2_5", Value.q 3),
       ("avg_pm10", Value.q 4), ("avg_ozone", Value.q 5),
       ("avg_wind_speed", Value.q 2), ("count", Value.q 1)] from by
    unfold windAggRow
    rw [show goldenDf.filter
      (fun r => decide (windCategory r = "Light (0-3 km/h)")) =
      [[("time", Value.dt "2025-01-01T05:00"), ("pm2_5", Value.q 3),
        ("pm10", Value.q 4), ("ozone", Value.q 5), ("carbon_monoxide", Value.q 6),
        ("precipitation", Value.q 0), ("wind_speed_10m", Value.q 2),
        ("temperature_2m", Value.q 15), ("relative_humidity_2m", Value.q 50)]]
      from by decide]
    rw [meanCol_singleton, meanCol_singleton, meanCol_singleton,
      meanCol_singleton]
    decide]
  decide

theorem temp_golden_eval :
    analyze_temperature_humidity_relationship goldenDf =
      [[("temp_category", Value.s "10-20°C"), ("avg_pm2_5", Value.q 3),
        ("avg_ozone", Value.q 5), ("avg_temperature", Value.q 15),
        ("count", Value.q 1)]] := by
  unfold analyze_temperature_humidity_relationship
  rw [show (goldenDf.map tempCategory).dedup = ["10-20°C"] from by decide]
  rw [List.map_cons, List.map_nil]
  rw [show tempAggRow goldenDf "10-20°C" =
      [("temp_category", Value.s "10-20°C"), ("avg_pm2_5", Value.q 3),
       ("avg_ozone", Value.q 5), ("avg_temperature", Value.q 15),
       ("count", Value.q 1)] from by
    unfold tempAggRow
    rw [show goldenDf.filter (fun r => decide (tempCategory r = "10-20°C")) =
      [[("time", Value.dt "2025-01-01T05:00"), ("pm2_5", Value.q 3),
        ("pm10", Value.q 4), ("ozone", Value.q 5), ("carbon_monoxide", Value.q 6),
        ("precipitation", Value.q 0), ("wind_speed_10m", Value.q 2),
        ("temperature_2m", Value.q 15), ("relative_humidity_2m", Value.q 50)]]
      from by decide]
    rw [meanCol_singleton, meanCol_singleton, meanCol_singleton]
    decide]
  decide

theorem hourlyStats_golden :
    hourlyStats goldenPairs =
      [[("hour", Value.q 5), ("avg_pm2_5", Value.q 3),
        ("avg_temperature_2m", Value.q 15), ("avg_wind_speed_10m", Value.q 2),
        ("avg_relative_humidity_2m", Value.q 50), ("count", Value.q 1)]] := by
  have hrow : hourAggRow goldenPairs 5 =
      [("hour", Value.q 5), ("avg_pm2_5", Value.q 3),
       ("avg_temperature_2m", Value.q 15), ("avg_wind_speed_10m", Value.q 2),
       ("avg_relative_humidity_2m", Value.q 50), ("count", Value.q 1)] := by
    unfold hourAggRow hourMean
    rw [show (goldenPairs.filter (fun pr => decide (pr.2 = 5))).map Prod.fst =
      [[("time", Value.dt "2025-01-01T05:00"), ("pm2_5", Value.q 3),
        ("pm10", Value.q 4), ("ozone", Value.q 5), ("carbon_monoxide", Value.q 6),
        ("precipitation", Value.q 0), ("wind_speed_10m", Value.q 2),
        ("temperature_2m", Value.q 15), ("relative_humidity_2m", Value.q 50)]]
      from by decide]
    rw [meanCol_singleton, meanCol_singleton, meanCol_singleton,
      meanCol_singleton]
    decide
  unfold hourlyStats
  rw [show List.insertionSort (fun a b => a ≤ b)
    ((goldenPairs.map Prod.snd).dedup) = [5] from by decide]
  rw [List.map_cons, List.map_nil, hrow]

theorem analyze_hourly_golden_eval :
    analyze_hourly_patterns goldenDf =
      some (hourlyStats goldenPairs, Value.q 5, Value.q 5) := by
  have hpairsG : hourlyRows goldenDf = some goldenPairs := by decide
  have hred : analyze_hourly_patterns goldenDf = (match
      hourItem (hourlyStats goldenPairs) (seriesMax
        ((hourlyStats goldenPairs).filterMap (fun r => getQ r "avg_pm2_5"))),
      hourItem (hourlyStats goldenPairs) (seriesMin
        ((hourlyStats goldenPairs).filterMap (fun r => getQ r "avg_pm2_5"))) with
    | some a, some b => some (hourlyStats goldenPairs, a, b)
    | _, _ => none) := by
    unfold analyze_hourly_patterns
    rw [hpairsG]
  rw [hred, hourlyStats_golden]
  decide

theorem calculate_analytics_golden_eval :
    calculate_analytics goldenDf = some goldenFiles := by
  unfold calculate_analytics
  rw [analyze_hourly_golden_eval]
  show some [("precipitation.csv", analyze_precipitation_effect goldenDf),
      ("wind.csv", analyze_wind_effect goldenDf),
      ("hourly_patterns.csv", hourlyStats goldenPairs),
      ("humidity_df.csv",
        analyze_temperature_humidity_relationship goldenDf)] =
    some goldenFiles
  rw [precip_golden_eval, wind_golden_eval, temp_golden_eval,
    hourlyStats_golden]
  rfl

/-- Witness for C10 at a concrete one-row batch: the four files and their
fixed names, with only dimension/mean/count columns. -/
theorem analytics_csv_columns_witness :
    calculate_analytics goldenDf = some goldenFiles ∧
    goldenFiles.map Prod.fst =
      ["precipitation.csv", "wind.csv", "hourly_patterns.csv",
       "humidity_df.csv"] :=
  ⟨calculate_analytics_golden_eval,
    (analytics_csv_columns goldenDf goldenFiles
      calculate_analytics_golden_eval).1⟩

end GoldenLayer

end Pipeline
